import Mathlib

/-!
Shallow embedding of the dailytask repository (karbobc/dailytask): the
authenticated-session protocol of the two service clients
(`src/dailytask/api/_yunyu.py`, `src/dailytask/api/_redsea.py`), the task
functions (`src/dailytask/scheduler/_yunyu.py`, `_redsea.py`) and the
boundary API over the schedule registry (`src/dailytask/app.py`).

Network responses are inputs: each embedded operation is parameterised by the
(already parsed) server responses it would receive, per attempt where the
operation can be retried.  Python exceptions are modelled by the `Err` type;
an operation that can raise returns an `Except Err` result or an
`Option Err` outcome next to its mutated state.  Side effects that the
claims quantify over (remote calls, notifications, sleeps) are recorded in an
event list.
-/

namespace DailyTask

/-- The Python exception values the protocol distinguishes:
`UnauthorizedError`, `httpx.TimeoutException`, a `RuntimeError`-style failure
carrying its message (also standing for `AttributeError`/`JSONDecodeError`,
named in the message), and tenacity's `RetryError` wrapping the last
attempt's exception. -/
inductive Err where
  | unauthorized
  | timeout
  | runtime (msg : String)
  | retryError (last : Err)
  deriving DecidableEq, Repr

/-- `retry_if_exception_type((UnauthorizedError, httpx.TimeoutException))`:
the two exception classes the tenacity wrappers re-attempt on. -/
def isRetryable : Err → Bool
  | .unauthorized => true
  | .timeout => true
  | _ => false

/-- Outcome of one transport-level request: a network timeout
(`httpx.TimeoutException`) or a delivered response. -/
inductive HttpResult (ρ : Type) where
  | timeout
  | resp (r : ρ)

/-- Observable side effects: one constructor per remote endpoint the clients
call, plus the retry wrapper's sleeps and the ntfy notifications
(`send(topic, message, title?, priority?)`; the priority is the numeric
value of the `NtfyPriority` member passed, `none` when omitted). -/
inductive Ev where
  | createTokenCall
  | loginCall
  | applyTokenCall
  | refreshCall
  | fetchUserInfoCall
  | billsCall
  | balanceCall
  | touchFishCall
  | touchFishStateCall
  | sleep (units : Nat)
  | notify (topic : String) (message : String) (title : Option String) (priority : Option Nat)
  deriving DecidableEq, Repr

/-- Result of running a retry-wrapped operation: final state, the events of
the whole run, the returned value or propagated exception, and how many
attempts the wrapper made. -/
structure Run (σ α : Type) where
  state : σ
  events : List Ev
  result : Except Err α
  attempts : Nat
  deriving Repr

/-- The tenacity retry loop, `fuel` attempts remaining, `n` the 1-based index
of the next attempt.  One attempt is `op n st`.  A successful attempt
returns; a failing attempt whose exception satisfies `retryable` is followed
by a fixed `wait` sleep and another attempt, unless it was the last allowed
attempt, in which case tenacity (with its default `reraise=False`) raises
`RetryError` wrapping the last exception; any other exception is re-raised
immediately. -/
def tenacityGo {σ α : Type} (retryable : Err → Bool) (wait : Nat)
    (op : Nat → σ → σ × List Ev × Except Err α) :
    Nat → Nat → σ → Run σ α
  | 0, _, st => ⟨st, [], .error (.runtime "no attempts configured"), 0⟩
  | fuel + 1, n, st =>
    match op n st with
    | (st1, evs, .ok a) => ⟨st1, evs, .ok a, 1⟩
    | (st1, evs, .error e) =>
      if retryable e then
        if fuel = 0 then ⟨st1, evs, .error (.retryError e), 1⟩
        else
          let r := tenacityGo retryable wait op fuel (n + 1) st1
          ⟨r.state, evs ++ Ev.sleep wait :: r.events, r.result, r.attempts + 1⟩
      else ⟨st1, evs, .error e, 1⟩

/-- `@retry(stop=stop_after_attempt(maxAttempts), wait=wait_fixed(wait),
retry=retry_if_exception_type(...))` applied to the stateful operation
`op`. -/
def tenacityRetry {σ α : Type} (maxAttempts wait : Nat) (retryable : Err → Bool)
    (op : Nat → σ → σ × List Ev × Except Err α) (st : σ) : Run σ α :=
  tenacityGo retryable wait op maxAttempts 1 st

/-- State threaded through a retried run: `runStates op n st k` is the state
before the `(k+1)`-th attempt of a run whose first attempt has index `n` and
starts in `st`. -/
def runStates {σ α : Type} (op : Nat → σ → σ × List Ev × Except Err α)
    (n : Nat) (st : σ) : Nat → σ
  | 0 => st
  | k + 1 => (op (n + k) (runStates op n st k)).1

/-- The result of the `(k+1)`-th attempt of a run (see `runStates`). -/
def attemptRes {σ α : Type} (op : Nat → σ → σ × List Ev × Except Err α)
    (n : Nat) (st : σ) (k : Nat) : Except Err α :=
  (op (n + k) (runStates op n st k)).2.2

/-- The events the `(k+1)`-th attempt of a run emits (see `runStates`). -/
def attemptEvs {σ α : Type} (op : Nat → σ → σ × List Ev × Except Err α)
    (n : Nat) (st : σ) (k : Nat) : List Ev :=
  (op (n + k) (runStates op n st k)).2.1

/-- Event lists of the individual attempts joined with one fixed-length sleep
between consecutive attempts. -/
def intersperseSleep (wait : Nat) : List (List Ev) → List Ev
  | [] => []
  | [l] => l
  | l :: ls => l ++ Ev.sleep wait :: intersperseSleep wait ls

namespace YunYu

/-! The billing client `YunYu` (`src/dailytask/api/_yunyu.py`): a two-token
scheme.  The durable storage is the two files `CACHE_DIR/access_token` and
`CACHE_DIR/refresh_token`, modelled as two optional text blobs (`none` = the
file does not exist). -/

/-- The configured cache directory: content of `access_token` and
`refresh_token`, `none` when the file does not exist. -/
structure Store where
  accessFile : Option String
  refreshFile : Option String
  deriving DecidableEq, Repr

/-- In-memory state of a `YunYu` session: the constructor arguments
`account`/`password`, the two tokens (class defaults are the empty string)
and the cache directory it persists to. -/
structure State where
  account : String
  password : String
  accessToken : String
  refreshToken : String
  store : Store
  deriving DecidableEq, Repr

/-- `POST /user/login` response: `success`, and `data.accessToken` (read only
when `success`). -/
structure LoginResp where
  success : Bool
  accessToken : String
  deriving DecidableEq, Repr

/-- `POST /user/login/applyToken` response: `success`, and `data` (the
refresh token itself). -/
structure ApplyTokenResp where
  success : Bool
  data : String
  deriving DecidableEq, Repr

/-- `POST /user/login/loginByToken` response: `code` (0 = accepted) and
`data.accessToken`. -/
structure RefreshResp where
  code : Int
  accessToken : String
  deriving DecidableEq, Repr

/-- The authentication endpoints of the billing portal, as functions of the
request payload the client sends: `login` of the account and password,
`applyToken` of the access token presented as `SESSION` cookie, `refresh` of
the refresh token. -/
structure Server where
  login : String → String → LoginResp
  applyToken : String → ApplyTokenResp
  refresh : String → RefreshResp

/-- `_get_refresh_token_from_file`: read the token if the file exists,
otherwise leave the attribute as it is. -/
def getRefreshTokenFromFile (st : State) : State :=
  match st.store.refreshFile with
  | none => st
  | some s => { st with refreshToken := s }

/-- `_get_access_token_from_file`: read the token if the file exists,
otherwise leave the attribute as it is. -/
def getAccessTokenFromFile (st : State) : State :=
  match st.store.accessFile with
  | none => st
  | some s => { st with accessToken := s }

/-- `_save_refresh_token_to_file`: write the in-memory refresh token
through to durable storage. -/
def saveRefreshTokenToFile (st : State) : State :=
  { st with store := { st.store with refreshFile := some st.refreshToken } }

/-- `_save_access_token_to_file`: write the in-memory access token through
to durable storage. -/
def saveAccessTokenToFile (st : State) : State :=
  { st with store := { st.store with accessFile := some st.accessToken } }

/-- `YunYu.__init__`: both tokens start as the class default `""`, then
`_get_refresh_token_from_file` and `_get_access_token_from_file` load
whatever the storage holds, before any network call. -/
def init (store : Store) (account password : String) : State :=
  getAccessTokenFromFile (getRefreshTokenFromFile ⟨account, password, "", "", store⟩)

/-- `_apply_token`: exchange the access token for a refresh token; on
server-reported failure log and return with state unchanged, otherwise set
the refresh token and persist it. -/
def applyToken (server : Server) (st : State) : State × List Ev :=
  let r := server.applyToken st.accessToken
  if r.success = false then (st, [.applyTokenCall])
  else (saveRefreshTokenToFile { st with refreshToken := r.data }, [.applyTokenCall])

/-- `_login`: on server-reported failure log and return with state
unchanged; on success set the access token, persist it, then immediately
`_apply_token`. -/
def login (server : Server) (st : State) : State × List Ev :=
  let r := server.login st.account st.password
  if r.success = false then (st, [.loginCall])
  else
    let st1 := saveAccessTokenToFile { st with accessToken := r.accessToken }
    let p := applyToken server st1
    (p.1, .loginCall :: p.2)

/-- `_refresh_access_token`: present the stored refresh token; if the server
rejects it (`code != 0`) fall back to a full `_login`, otherwise set the new
access token and persist it. -/
def refreshAccessToken (server : Server) (st : State) : State × List Ev :=
  let r := server.refresh st.refreshToken
  if r.code ≠ 0 then
    let p := login server st
    (p.1, .refreshCall :: p.2)
  else (saveAccessTokenToFile { st with accessToken := r.accessToken }, [.refreshCall])

/-- An outgoing request, as far as the client mutates it: the `SESSION`
value sent in the `Cookie` header. -/
structure Request where
  cookieSession : String
  deriving DecidableEq, Repr

/-- `_request_interceptor`: unconditionally attach the current access token
as the `SESSION` cookie and log; it never authenticates and never raises. -/
def requestInterceptor (st : State) (req : Request) : Request × List Ev × Option Err :=
  ({ req with cookieSession := st.accessToken }, [], none)

/-- `_response_interceptor`: read the parsed body's `code`; `-5` is the
numeric "unauthorized" marker: re-authenticate via `_refresh_access_token`
and raise `UnauthorizedError`; any other code returns the response to the
caller untouched. -/
def responseInterceptor (server : Server) (st : State) (code : Int) :
    State × List Ev × Option Err :=
  if code = -5 then
    let p := refreshAccessToken server st
    (p.1, p.2, some .unauthorized)
  else (st, [], none)

/-- One row of `data.content` in the prepay-energy page response
(the fields `fetch_daily_bills` reads). -/
structure BillEntry where
  consumeDate : Int
  avgUsing : String
  unitPrice : String
  rate : String
  fee : String
  deriving DecidableEq, Repr

/-- `data` of the `POST /smart/prepayEnergyList/page` response. -/
structure BillsData where
  content : List BillEntry
  deriving DecidableEq, Repr

/-- Parsed `POST /smart/prepayEnergyList/page` response envelope. -/
structure BillsResp where
  code : Int
  success : Bool
  msg : String
  data : BillsData
  deriving DecidableEq, Repr

/-- Parsed `GET /user/prepayBalance` response envelope; `data.balance` is
`float | str` in the source, modelled as its textual value. -/
structure BalanceResp where
  code : Int
  success : Bool
  msg : String
  balance : String
  deriving DecidableEq, Repr

/-- One attempt of `fetch_prepay_energy_bills`: the request hook attaches
the cookie, the transport may time out, the response hook may refresh and
raise `UnauthorizedError` on code `-5`; otherwise a successful envelope
returns `data` and a failure envelope raises `RuntimeError(msg)`. -/
def billsAttempt (server : Server) (net : Nat → HttpResult BillsResp) (n : Nat)
    (st : State) : State × List Ev × Except Err BillsData :=
  match net n with
  | .timeout => (st, [.billsCall], .error .timeout)
  | .resp r =>
    let p := responseInterceptor server st r.code
    match p.2.2 with
    | some err => (p.1, .billsCall :: p.2.1, .error err)
    | none =>
      if r.success then (p.1, .billsCall :: p.2.1, .ok r.data)
      else (p.1, .billsCall :: p.2.1, .error (.runtime r.msg))

/-- One attempt of `fetch_prepay_balance` (same shape as `billsAttempt`). -/
def balanceAttempt (server : Server) (net : Nat → HttpResult BalanceResp) (n : Nat)
    (st : State) : State × List Ev × Except Err String :=
  match net n with
  | .timeout => (st, [.balanceCall], .error .timeout)
  | .resp r =>
    let p := responseInterceptor server st r.code
    match p.2.2 with
    | some err => (p.1, .balanceCall :: p.2.1, .error err)
    | none =>
      if r.success then (p.1, .balanceCall :: p.2.1, .ok r.balance)
      else (p.1, .balanceCall :: p.2.1, .error (.runtime r.msg))

/-- `fetch_prepay_energy_bills`: the attempt under
`@retry(stop=stop_after_attempt(3), wait=wait_fixed(1),
retry=retry_if_exception_type((UnauthorizedError, httpx.TimeoutException)))`. -/
def fetchPrepayEnergyBills (server : Server) (net : Nat → HttpResult BillsResp)
    (st : State) : Run State BillsData :=
  tenacityRetry 3 1 isRetryable (billsAttempt server net) st

/-- `fetch_prepay_balance` under the same retry decorator. -/
def fetchPrepayBalance (server : Server) (net : Nat → HttpResult BalanceResp)
    (st : State) : Run State String :=
  tenacityRetry 3 1 isRetryable (balanceAttempt server net) st

end YunYu

namespace RedSea

/-! The attendance client `RedSea` (`src/dailytask/api/_redsea.py`): a
session-cookie scheme.  The credential is the cookie jar of the shared
`httpx.AsyncClient` plus the cached user profile (`self.user`, an attribute
that does not exist before the first `_init`). -/

/-- The cached profile `self.user` built by `_init`. -/
structure User where
  user_id : String
  user_name : String
  staff_id : String
  deriving DecidableEq, Repr

/-- Session state: the cached profile (`none` = the `user` attribute does
not exist yet) and the session cookie jar. -/
structure State where
  user : Option User
  cookies : List (String × String)
  deriving DecidableEq, Repr

/-- `sso.mob?method=createtoken` response: `state` (`"1"` = ok), the SSO
token in `result`, the failure message in `meg`. -/
structure CreateTokenResp where
  state : String
  result : String
  meg : String
  deriving DecidableEq, Repr

/-- `sso.mob?method=oauthLogin` response: `state` (`"1"` = ok), the message
in `tipMsg`, and the cookies the redirect flow sets. -/
structure OauthResp where
  state : String
  tipMsg : String
  cookies : List (String × String)
  deriving DecidableEq, Repr

/-- `PtUsers.mc?method=getCurUserInfo` response: the raw body text (empty
means the session cookie was rejected) and the parsed profile fields. -/
structure UserInfoResp where
  text : String
  userId : String
  userName : String
  staffId : String
  deriving DecidableEq, Repr

/-- The attendance portal's authentication endpoints: the createtoken
response, the oauthLogin response as a function of the SSO token sent, and
the per-attempt getCurUserInfo transport outcome. -/
structure Server where
  createToken : CreateTokenResp
  oauthLogin : String → OauthResp
  userInfo : Nat → HttpResult UserInfoResp

/-- `_create_token`: a signed request exchanged for a short-lived SSO token;
failure raises `RuntimeError(result["meg"])` immediately. -/
def createToken (server : Server) : List Ev × Except Err String :=
  if server.createToken.state = "1" then ([.createTokenCall], .ok server.createToken.result)
  else ([.createTokenCall], .error (.runtime server.createToken.meg))

/-- `dict`-style cookie update: replace the value under an existing key,
append a new key at the end. -/
def setCookie (cs : List (String × String)) (kv : String × String) :
    List (String × String) :=
  if cs.any fun c => c.1 = kv.1 then cs.map fun c => if c.1 = kv.1 then kv else c
  else cs ++ [kv]

/-- `self.session.cookies.update(response.cookies)`. -/
def updateCookies (old upd : List (String × String)) : List (String × String) :=
  upd.foldl setCookie old

/-- `_login`: exchange the SSO token from `_create_token` for a session
cookie; on success store the returned cookies, otherwise raise
`RuntimeError(result["tipMsg"])`.  A `_create_token` failure propagates. -/
def login (server : Server) (st : State) : State × List Ev × Option Err :=
  match createToken server with
  | (evs, .error e) => (st, evs, some e)
  | (evs, .ok token) =>
    let r := server.oauthLogin token
    if r.state = "1" then
      ({ st with cookies := updateCookies st.cookies r.cookies }, evs ++ [.loginCall], none)
    else (st, evs ++ [.loginCall], some (.runtime r.tipMsg))

/-- One attempt of `_fetch_user_info`: an empty response body means the
cookie was rejected, so `_login()` again and raise `UnauthorizedError`
(a `_login` failure propagates instead); otherwise return the parsed
profile. -/
def fetchUserInfoAttempt (server : Server) (n : Nat) (st : State) :
    State × List Ev × Except Err UserInfoResp :=
  match server.userInfo n with
  | .timeout => (st, [.fetchUserInfoCall], .error .timeout)
  | .resp r =>
    if r.text = "" then
      let p := login server st
      (p.1, .fetchUserInfoCall :: p.2.1, .error (p.2.2.getD .unauthorized))
    else (st, [.fetchUserInfoCall], .ok r)

/-- `_fetch_user_info` under its own
`@retry(stop=stop_after_attempt(3), wait=wait_fixed(1), ...)` decorator. -/
def fetchUserInfo (server : Server) (st : State) : Run State UserInfoResp :=
  tenacityRetry 3 1 isRetryable (fetchUserInfoAttempt server) st

/-- `_init`: a full `_login`, then `_fetch_user_info`, then cache the
profile as `self.user`.  Errors of either step propagate. -/
def init (server : Server) (st : State) : State × List Ev × Option Err :=
  let p := login server st
  match p.2.2 with
  | some err => (p.1, p.2.1, some err)
  | none =>
    let r := fetchUserInfo server p.1
    match r.result with
    | .error err => (r.state, p.2.1 ++ r.events, some err)
    | .ok u =>
      ({ r.state with user := some ⟨u.userId, u.userName, u.staffId⟩ },
        p.2.1 ++ r.events, none)

/-- `_request_interceptor`: if the `user` attribute does not exist (first
use), run `_init` and fail this attempt with `UnauthorizedError` (an `_init`
failure propagates instead); otherwise the request proceeds unchanged. -/
def requestInterceptor (server : Server) (st : State) : State × List Ev × Option Err :=
  match st.user with
  | some _ => (st, [], none)
  | none =>
    let p := init server st
    match p.2.2 with
    | some err => (p.1, p.2.1, some err)
    | none => (p.1, p.2.1, some .unauthorized)

/-- The parsed JSON body of an attendance response, as far as the
interceptor and the two operations read it: `state` (`result.get("state")`),
`meg`, and a numeric `code` field that this client never reads. -/
structure Payload where
  state : Option String
  code : Option Int
  meg : String
  deriving DecidableEq, Repr

/-- An attendance HTTP response: status code, the `Location` header, and the
JSON body (`none`: the body is not JSON, so `response.json()` raises
`json.JSONDecodeError`). -/
structure HttpResponse where
  statusCode : Nat
  location : Option String
  body : Option Payload
  deriving DecidableEq, Repr

/-- `_response_interceptor`: first the redirect marker (`302` to
`/RedseaPlatform/index`), then — only if the body parses as JSON — the
`state == "Nosession"` marker; a matching marker triggers one `_login` and
raises `UnauthorizedError` (a `_login` failure propagates instead); a
`JSONDecodeError` is swallowed and anything else returns the response
untouched. -/
def responseInterceptor (server : Server) (st : State) (resp : HttpResponse) :
    State × List Ev × Option Err :=
  if resp.statusCode = 302 ∧ resp.location = some "/RedseaPlatform/index" then
    let p := login server st
    (p.1, p.2.1, some (p.2.2.getD .unauthorized))
  else
    match resp.body with
    | none => (st, [], none)
    | some j =>
      if j.state = some "Nosession" then
        let p := login server st
        (p.1, p.2.1, some (p.2.2.getD .unauthorized))
      else (st, [], none)

/-- `result["result"]` of a successful `kqCommonDaka.mc?method=daka` call:
the dict whose `msg` the task function reads. -/
structure TouchData where
  msg : Option String
  deriving DecidableEq, Repr

/-- Response to the `daka` call: the HTTP envelope the interceptor reads
plus the `result` payload returned when `state == "1"`. -/
structure TouchFishResp where
  http : HttpResponse
  result : TouchData
  deriving DecidableEq, Repr

/-- `kqCountSimple` of the day-team response: the punch-card times and
status names the task function reads with `.get`. -/
structure KqCount where
  sbDkTime : Option String
  sbDkTime2 : Option String
  sbDkTime3 : Option String
  sbStatusName : Option String
  sbStatusName2 : Option String
  sbStatusName3 : Option String
  xbDkTime : Option String
  xbDkTime2 : Option String
  xbDkTime3 : Option String
  xbStatusName : Option String
  xbStatusName2 : Option String
  xbStatusName3 : Option String
  deriving DecidableEq, Repr

/-- `kqCountSimple` read from an empty dict: every `.get` yields `None`. -/
def KqCount.empty : KqCount :=
  ⟨none, none, none, none, none, none, none, none, none, none, none, none⟩

/-- `result["result"]` of a successful `dingDingKqInteface.mc?method=getDayTeam`
call. -/
structure KqData where
  kqCountSimple : Option KqCount
  deriving DecidableEq, Repr

/-- Response to the `getDayTeam` call. -/
structure TouchFishStateResp where
  http : HttpResponse
  result : KqData
  deriving DecidableEq, Repr

/-- One attempt of `touch_fish`: the request hook may `_init` and raise
`UnauthorizedError`; then the transport may time out; then the response hook
checks the invalidation markers; finally `state == "1"` returns
`result["result"]` and anything else raises `RuntimeError(result["meg"])`
(a non-JSON body raises `json.JSONDecodeError` at `response.json()`). -/
def touchFishAttempt (server : Server) (net : Nat → HttpResult TouchFishResp)
    (n : Nat) (st : State) : State × List Ev × Except Err TouchData :=
  let q := requestInterceptor server st
  match q.2.2 with
  | some err => (q.1, q.2.1, .error err)
  | none =>
    match net n with
    | .timeout => (q.1, q.2.1 ++ [.touchFishCall], .error .timeout)
    | .resp r =>
      let p := responseInterceptor server q.1 r.http
      match p.2.2 with
      | some err => (p.1, q.2.1 ++ .touchFishCall :: p.2.1, .error err)
      | none =>
        match r.http.body with
        | none => (p.1, q.2.1 ++ .touchFishCall :: p.2.1, .error (.runtime "JSONDecodeError"))
        | some j =>
          if j.state = some "1" then (p.1, q.2.1 ++ .touchFishCall :: p.2.1, .ok r.result)
          else (p.1, q.2.1 ++ .touchFishCall :: p.2.1, .error (.runtime j.meg))

/-- One attempt of `touch_fish_state`: building the request parameters reads
`self.user["user_id"]`, which raises `AttributeError` when the attribute
does not exist; past that, the shape is as in `touchFishAttempt`. -/
def touchFishStateAttempt (server : Server) (net : Nat → HttpResult TouchFishStateResp)
    (n : Nat) (st : State) : State × List Ev × Except Err KqData :=
  match st.user with
  | none => (st, [], .error (.runtime "AttributeError: user"))
  | some _ =>
    let q := requestInterceptor server st
    match q.2.2 with
    | some err => (q.1, q.2.1, .error err)
    | none =>
      match net n with
      | .timeout => (q.1, q.2.1 ++ [.touchFishStateCall], .error .timeout)
      | .resp r =>
        let p := responseInterceptor server q.1 r.http
        match p.2.2 with
        | some err => (p.1, q.2.1 ++ .touchFishStateCall :: p.2.1, .error err)
        | none =>
          match r.http.body with
          | none =>
            (p.1, q.2.1 ++ .touchFishStateCall :: p.2.1, .error (.runtime "JSONDecodeError"))
          | some j =>
            if j.state = some "1" then
              (p.1, q.2.1 ++ .touchFishStateCall :: p.2.1, .ok r.result)
            else (p.1, q.2.1 ++ .touchFishStateCall :: p.2.1, .error (.runtime j.meg))

/-- `touch_fish` under its `@retry(stop=stop_after_attempt(3),
wait=wait_fixed(1), retry=retry_if_exception_type((UnauthorizedError,
httpx.TimeoutException)))` decorator. -/
def touchFish (server : Server) (net : Nat → HttpResult TouchFishResp)
    (st : State) : Run State TouchData :=
  tenacityRetry 3 1 isRetryable (touchFishAttempt server net) st

/-- `touch_fish_state` under the same retry decorator. -/
def touchFishState (server : Server) (net : Nat → HttpResult TouchFishStateResp)
    (st : State) : Run State KqData :=
  tenacityRetry 3 1 isRetryable (touchFishStateAttempt server net) st

end RedSea

namespace Scheduler

/-! The task functions (`src/dailytask/scheduler/_redsea.py` and
`_yunyu.py`).  A task's observable behaviour is the final client state, the
events (remote calls, sleeps, notifications) and the exception it lets
escape to the scheduler (`none` = it completed without raising).  The
notification sender is the collaborator the spec declares non-raising, so a
`send` is just an event. -/

/-- Python truthiness of an optional string (`None` and `""` are falsy). -/
def pyTruthy : Option String → Bool
  | none => false
  | some s => s ≠ ""

/-- Python `a or b` on optional strings. -/
def pyOr (a b : Option String) : Option String := if pyTruthy a then a else b

/-- How an optional string renders inside an f-string (`None` prints as
`"None"`). -/
def renderOpt : Option String → String
  | none => "None"
  | some s => s

/-- `"✅" if state in ["正常", "休息"] else "❌"`. -/
def emojiOf (stateName : String) : String :=
  if stateName = "正常" ∨ stateName = "休息" then "✅" else "❌"

/-- Models `traceback.format_exc()`: the captured trace of the exception the
blanket handler caught, rendered from the exception value. -/
def tracebackStr (e : Err) : String := reprStr e

/-- The message body `lazy` formats on success from `kqCountSimple`: the
start line, plus the end line when the end punch time is truthy. -/
def lazySuccessMessage (k : RedSea.KqCount) : String :=
  let startTime := pyOr (pyOr k.sbDkTime k.sbDkTime2) k.sbDkTime3
  let startState := (pyOr (pyOr (pyOr k.sbStatusName k.sbStatusName2) k.sbStatusName3)
    (some "正常")).getD "正常"
  let endTime := pyOr (pyOr k.xbDkTime k.xbDkTime2) k.xbDkTime3
  let endState := (pyOr (pyOr (pyOr k.xbStatusName k.xbStatusName2) k.xbStatusName3)
    (some "正常")).getD "正常"
  let firstLine := "💤：" ++ renderOpt startTime ++ " " ++ startState ++ " " ++ emojiOf startState
  if pyTruthy endTime then
    firstLine ++ "\n🎉：" ++ renderOpt endTime ++ " " ++ endState ++ " " ++ emojiOf endState
  else firstLine

/-- `lazy`: `touch_fish`, then `touch_fish_state`, then format and send one
notification; any exception from the client layer is caught by the blanket
handler, which sends one error notification at `MAX_PRIORITY` (numeric value
5) carrying the captured trace — the task itself never raises. -/
def lazy (server : RedSea.Server) (netTf : Nat → HttpResult RedSea.TouchFishResp)
    (netTfs : Nat → HttpResult RedSea.TouchFishStateResp) (st : RedSea.State) :
    RedSea.State × List Ev × Option Err :=
  let r1 := RedSea.touchFish server netTf st
  match r1.result with
  | .error e =>
    (r1.state, r1.events ++ [.notify "error" ("打卡异常\n" ++ tracebackStr e) none (some 5)],
      none)
  | .ok td =>
    let r2 := RedSea.touchFishState server netTfs r1.state
    match r2.result with
    | .error e =>
      (r2.state,
        r1.events ++ r2.events
          ++ [.notify "error" ("打卡异常\n" ++ tracebackStr e) none (some 5)], none)
    | .ok kq =>
      let k := kq.kqCountSimple.getD RedSea.KqCount.empty
      (r2.state,
        r1.events ++ r2.events
          ++ [.notify "daily" (lazySuccessMessage k) (some ("⏰" ++ renderOpt td.msg)) none],
        none)

/-- `lazy_in_workday`: `is_workday` is called before — and outside — the
blanket handler of `lazy`; an oracle failure therefore propagates to the
caller, a falsy oracle skips entirely, and a truthy oracle delegates. -/
def lazyInWorkday (oracle : Except Err Bool) (server : RedSea.Server)
    (netTf : Nat → HttpResult RedSea.TouchFishResp)
    (netTfs : Nat → HttpResult RedSea.TouchFishStateResp) (st : RedSea.State) :
    RedSea.State × List Ev × Option Err :=
  match oracle with
  | .error e => (st, [], some e)
  | .ok false => (st, [], none)
  | .ok true => lazy server netTf netTfs st

/-- `lazy_with_random_delay`: suspend for the drawn
`random.randint(min_sec, max_sec)` seconds, then delegate to `lazy`.  The
drawn value is the explicit `delaySec` parameter. -/
def lazyWithRandomDelay (delaySec : Nat) (server : RedSea.Server)
    (netTf : Nat → HttpResult RedSea.TouchFishResp)
    (netTfs : Nat → HttpResult RedSea.TouchFishStateResp) (st : RedSea.State) :
    RedSea.State × List Ev × Option Err :=
  let p := lazy server netTf netTfs st
  (p.1, .sleep delaySec :: p.2.1, p.2.2)

/-- `lazy_with_random_delay_in_workday`: the workday gate of
`lazy_in_workday` around `lazy_with_random_delay`; the oracle is again
called outside any handler. -/
def lazyWithRandomDelayInWorkday (oracle : Except Err Bool) (delaySec : Nat)
    (server : RedSea.Server) (netTf : Nat → HttpResult RedSea.TouchFishResp)
    (netTfs : Nat → HttpResult RedSea.TouchFishStateResp) (st : RedSea.State) :
    RedSea.State × List Ev × Option Err :=
  match oracle with
  | .error e => (st, [], some e)
  | .ok false => (st, [], none)
  | .ok true => lazyWithRandomDelay delaySec server netTf netTfs st

/-- Models the `datetime.fromtimestamp(int(ts) / 1000).strftime(...)`
rendering of the epoch-millisecond settlement timestamp. -/
def formatTimestamp (ts : Int) : String := toString ts

/-- The message body `fetch_daily_bills` formats from the first bill row and
the balance. -/
def billsMessage (e : YunYu.BillEntry) (balance : String) : String :=
  "结算时间: " ++ formatTimestamp e.consumeDate ++ "\n用电量: " ++ e.avgUsing
    ++ "度\n单价: " ++ e.unitPrice ++ " × " ++ e.rate ++ "\n小计: " ++ e.fee
    ++ "\n余额: " ++ balance

/-- `fetch_daily_bills`: fetch the bill page and the balance, read
`data["content"][0]` (an empty page raises `IndexError`, still inside the
blanket handler), format and send one notification; any exception is
converted to one `MAX_PRIORITY` error notification — the task never
raises. -/
def fetchDailyBills (server : YunYu.Server) (netB : Nat → HttpResult YunYu.BillsResp)
    (netBal : Nat → HttpResult YunYu.BalanceResp) (st : YunYu.State) :
    YunYu.State × List Ev × Option Err :=
  let r1 := YunYu.fetchPrepayEnergyBills server netB st
  match r1.result with
  | .error e =>
    (r1.state,
      r1.events ++ [.notify "error" ("获取电费账单异常\n" ++ tracebackStr e) none (some 5)],
      none)
  | .ok d =>
    let r2 := YunYu.fetchPrepayBalance server netBal r1.state
    match r2.result with
    | .error e =>
      (r2.state,
        r1.events ++ r2.events
          ++ [.notify "error" ("获取电费账单异常\n" ++ tracebackStr e) none (some 5)], none)
    | .ok bal =>
      match d.content with
      | [] =>
        (r2.state,
          r1.events ++ r2.events
            ++ [.notify "error"
                  ("获取电费账单异常\n" ++ tracebackStr (.runtime "IndexError")) none (some 5)],
          none)
      | entry :: _ =>
        (r2.state,
          r1.events ++ r2.events
            ++ [.notify "daily" (billsMessage entry bal) (some "电费账单") none], none)

/-- What `app.py`'s `lifespan` registers for each `YUNYU_CRON` entry: the
bare `fetch_daily_bills`, with no workday wrapper, so whether today is a
workday does not enter the task at all (the first parameter is unused). -/
def scheduledBillingTask (_isWorkdayToday : Bool) (server : YunYu.Server)
    (netB : Nat → HttpResult YunYu.BillsResp) (netBal : Nat → HttpResult YunYu.BalanceResp)
    (st : YunYu.State) : YunYu.State × List Ev × Option Err :=
  fetchDailyBills server netB netBal st

/-- An event counts as a notification. -/
def isNotify : Ev → Bool
  | .notify _ _ _ _ => true
  | _ => false

/-- The notifications among a run's events. -/
def notifications (evs : List Ev) : List Ev := evs.filter isNotify

/-- An event counts as a remote billing call. -/
def isBillingCall : Ev → Bool
  | .billsCall => true
  | .balanceCall => true
  | _ => false

end Scheduler

namespace App

/-! The boundary API over the schedule registry (`src/dailytask/app.py`).
The registry's data store is modelled by the set of schedule ids it knows
(APScheduler 4 `MemoryDataStore`); the in-memory `db` list of `Task` records
is modelled as is. -/

/-- The uniform response envelope `ApiResult` with the HTTP status it is
sent under. -/
structure ApiResponse where
  status : Nat
  success : Bool
  message : String
  deriving DecidableEq, Repr

/-- `ApiResult.ok()`: status 200, `success: true`, `message: "OK"`. -/
def apiOk : ApiResponse := ⟨200, true, "OK"⟩

/-- `ApiResult.e(status_code, message)`. -/
def apiError (status : Nat) (message : String) : ApiResponse := ⟨status, false, message⟩

/-- `global_exception_handler`: any unhandled exception becomes a 500 with
the stringified error. -/
def globalExceptionHandler (e : String) : ApiResponse :=
  apiError 500 ("internal server error: " ++ e)

/-- The registry's data store: the ids of the schedules it holds. -/
abbrev Registry := List String

/-- APScheduler's `data_store.remove_schedules(ids)`: delete the schedules
whose id is in `ids`; ids that are not present are silently ignored. -/
def removeSchedules (ids : List String) (reg : Registry) : Registry :=
  reg.filter fun i => ¬ ids.contains i

/-- `AsyncScheduler.remove_schedule(id)`, a bulk delete of the one id. -/
def removeSchedule (idv : String) (reg : Registry) : Registry :=
  removeSchedules [idv] reg

/-- `DELETE /api/task/date/{id}`: remove the schedule and acknowledge with
`ApiResult.ok()`. -/
def deleteDateTask (reg : Registry) (idv : String) : Registry × ApiResponse :=
  (removeSchedule idv reg, apiOk)

/-- `TaskType`. -/
inductive TaskType where
  | yunyu
  | redsea
  deriving DecidableEq, Repr

/-- An entry of the module-level `db` list. -/
structure Task where
  id : String
  type : TaskType
  deriving DecidableEq, Repr

/-- `list.remove(x)`: drop the first element equal to `x`. -/
def removeFirst (x : Task) : List Task → List Task
  | [] => []
  | y :: ys => if y = x then ys else y :: removeFirst x ys

/-- The loop both list endpoints run over a snapshot `db[:]` of the task
list: an entry whose id `get_schedule` no longer knows (it raises
`ScheduleLookupError`) is removed from the live list; known entries are kept
(entries of the other trigger kind are merely skipped for the response
data). -/
def pruneLoop (known : String → Bool) : List Task → List Task → List Task
  | [], db => db
  | t :: ts, db =>
    if known t.id then pruneLoop known ts db
    else pruneLoop known ts (removeFirst t db)

/-- The `db` list after `GET /api/task/cron` completes. -/
def getCronTaskDb (known : String → Bool) (db : List Task) : List Task :=
  pruneLoop known db db

/-- The `db` list after `GET /api/task/date` completes. -/
def getDateTaskDb (known : String → Bool) (db : List Task) : List Task :=
  pruneLoop known db db

end App

/-! Concrete fixtures used by witnesses and counterexamples. -/

/-- A fresh billing session over empty storage. -/
def st0Y : YunYu.State := YunYu.init ⟨none, none⟩ "account" "secret"

/-- A billing portal that rejects everything: login fails, applyToken fails,
the refresh token is rejected with code 1. -/
def yServerReject : YunYu.Server where
  login := fun _ _ => ⟨false, ""⟩
  applyToken := fun _ => ⟨false, ""⟩
  refresh := fun _ => ⟨1, ""⟩

/-- A billing portal that accepts everything. -/
def yServerOk : YunYu.Server where
  login := fun _ _ => ⟨true, "acc-tok"⟩
  applyToken := fun _ => ⟨true, "ref-tok"⟩
  refresh := fun _ => ⟨0, "acc-tok-2"⟩

/-- One settled bill row. -/
def billEntry0 : YunYu.BillEntry := ⟨1700000000000, "3.5", "0.61", "1", "2.14", ⟩

/-- A successful bill-page response. -/
def billsRespOk : YunYu.BillsResp := ⟨0, true, "", ⟨[billEntry0]⟩⟩

/-- A successful balance response. -/
def balanceRespOk : YunYu.BalanceResp := ⟨0, true, "", "100.00"⟩

/-- A transport that always delivers the same response. -/
def netConst {ρ : Type} (r : ρ) : Nat → HttpResult ρ := fun _ => .resp r

/-- A transport that always times out. -/
def netTimeout {ρ : Type} : Nat → HttpResult ρ := fun _ => .timeout

/-- A fresh attendance session: no cached user, empty cookie jar. -/
def st0R : RedSea.State := ⟨none, []⟩

/-- An attendance session that has already authenticated. -/
def st1R : RedSea.State := ⟨some ⟨"u1", "user-one", "s1"⟩, [("JSESSIONID", "c0")]⟩

/-- An attendance portal that accepts everything. -/
def rServerOk : RedSea.Server where
  createToken := ⟨"1", "sso-token", ""⟩
  oauthLogin := fun _ => ⟨"1", "", [("JSESSIONID", "c1")]⟩
  userInfo := fun _ => .resp ⟨"body", "u1", "user-one", "s1"⟩

/-- A JSON attendance response that carries the numeric unauthorized code
`-5` (marker (c)) but neither the redirect nor the `Nosession` marker. -/
def respCodeMinus5 : RedSea.HttpResponse := ⟨200, none, some ⟨some "ok", some (-5), ""⟩⟩

/-- A successful `daka` response. -/
def touchFishRespOk : RedSea.TouchFishResp :=
  ⟨⟨200, none, some ⟨some "1", none, ""⟩⟩, ⟨some "打卡成功"⟩⟩

/-- A successful `getDayTeam` response. -/
def touchFishStateRespOk : RedSea.TouchFishStateResp :=
  ⟨⟨200, none, some ⟨some "1", none, ""⟩⟩, ⟨some ⟨some "08:58", none, none, some "正常",
    none, none, none, none, none, none, none, none⟩⟩⟩

/-! Characterization of the tenacity retry wrapper. -/

/-- Splitting rule for the sleep-interspersed event join. -/
theorem intersperseSleep_cons (w : Nat) (l : List Ev) (ls : List (List Ev)) (h : ls ≠ []) :
    intersperseSleep w (l :: ls) = l ++ Ev.sleep w :: intersperseSleep w ls := by
  cases ls with
  | nil => exact absurd rfl h
  | cons a as => rfl

/-- Shifting the run trace by one attempt. -/
theorem runStates_shift {σ α : Type} (op : Nat → σ → σ × List Ev × Except Err α)
    (n : Nat) (st : σ) (k : Nat) :
    runStates op (n + 1) ((op n st).1) k = runStates op n st (k + 1) := by
  induction k with
  | zero => rfl
  | succ k ih =>
    show (op (n + 1 + k) (runStates op (n + 1) ((op n st).1) k)).1
      = (op (n + (k + 1)) (runStates op n st (k + 1))).1
    have hnk : n + 1 + k = n + (k + 1) := by omega
    rw [ih, hnk]

/-- Shifting an attempt's result by one attempt. -/
theorem attemptRes_shift {σ α : Type} (op : Nat → σ → σ × List Ev × Except Err α)
    (n : Nat) (st : σ) (k : Nat) :
    attemptRes op (n + 1) ((op n st).1) k = attemptRes op n st (k + 1) := by
  unfold attemptRes
  have hnk : n + 1 + k = n + (k + 1) := by omega
  rw [runStates_shift, hnk]

/-- Shifting an attempt's events by one attempt. -/
theorem attemptEvs_shift {σ α : Type} (op : Nat → σ → σ × List Ev × Except Err α)
    (n : Nat) (st : σ) (k : Nat) :
    attemptEvs op (n + 1) ((op n st).1) k = attemptEvs op n st (k + 1) := by
  unfold attemptEvs
  have hnk : n + 1 + k = n + (k + 1) := by omega
  rw [runStates_shift, hnk]

/-- Everything the retry wrapper guarantees about a finished run `r` of at
most `fuel` attempts starting with attempt index `n` in state `st`:
between one and `fuel` attempts were made; the final state is the threaded
state after the last attempt; the run's events are the attempts' events
joined by exactly one fixed `w`-unit sleep between consecutive attempts;
every attempt before the last failed with an exception the retry predicate
accepts; and the run's result is the last attempt's own result, except that
a run that exhausted all `fuel` attempts with a retryable failure ends with
tenacity's `RetryError` wrapping that last exception. -/
def RetryRunSpec {σ α : Type} (rb : Err → Bool) (w fuel : Nat)
    (op : Nat → σ → σ × List Ev × Except Err α) (n : Nat) (st : σ) (r : Run σ α) : Prop :=
  (1 ≤ r.attempts ∧ r.attempts ≤ fuel)
  ∧ r.state = runStates op n st r.attempts
  ∧ r.events = intersperseSleep w ((List.range r.attempts).map (attemptEvs op n st))
  ∧ (∀ k, k + 1 < r.attempts → ∃ e, attemptRes op n st k = .error e ∧ rb e = true)
  ∧ ((r.result = attemptRes op n st (r.attempts - 1)
        ∧ ∀ e, attemptRes op n st (r.attempts - 1) = .error e → rb e = false)
     ∨ ∃ e, attemptRes op n st (r.attempts - 1) = .error e ∧ rb e = true
         ∧ r.attempts = fuel ∧ r.result = .error (.retryError e))

/-- The run trace before any attempt is the start state. -/
theorem runStates_zero {σ α : Type} (op : Nat → σ → σ × List Ev × Except Err α)
    (n : Nat) (st : σ) : runStates op n st 0 = st := rfl

/-- The run trace after the first attempt. -/
theorem runStates_one {σ α : Type} (op : Nat → σ → σ × List Ev × Except Err α)
    (n : Nat) (st : σ) : runStates op n st 1 = (op n st).1 := by
  show runStates op n st (0 + 1) = (op n st).1
  simp [runStates]

/-- The first attempt's result. -/
theorem attemptRes_zero {σ α : Type} (op : Nat → σ → σ × List Ev × Except Err α)
    (n : Nat) (st : σ) : attemptRes op n st 0 = (op n st).2.2 := by
  simp [attemptRes, runStates]

/-- The first attempt's events. -/
theorem attemptEvs_zero {σ α : Type} (op : Nat → σ → σ × List Ev × Except Err α)
    (n : Nat) (st : σ) : attemptEvs op n st 0 = (op n st).2.1 := by
  simp [attemptEvs, runStates]

/-- A run the wrapper ends after its first attempt satisfies the spec when
that attempt's outcome is the run's result. -/
theorem retryRunSpec_single {σ α : Type} (rb : Err → Bool) (w fuel : Nat)
    (op : Nat → σ → σ × List Ev × Except Err α) (n : Nat) (st : σ) (st1 : σ)
    (evs : List Ev) (res res1 : Except Err α) (hfuel : 1 ≤ fuel)
    (hop : op n st = (st1, evs, res1))
    (hres : (res = res1 ∧ ∀ e, res1 = .error e → rb e = false)
      ∨ ∃ e, res1 = .error e ∧ rb e = true ∧ 1 = fuel ∧ res = .error (.retryError e)) :
    RetryRunSpec rb w fuel op n st ⟨st1, evs, res, 1⟩ := by
  refine ⟨⟨Nat.le_refl 1, hfuel⟩, ?_, ?_, ?_, ?_⟩
  · show st1 = runStates op n st 1
    rw [runStates_one, hop]
  · show evs = intersperseSleep w ((List.range 1).map (attemptEvs op n st))
    have h1 : List.range 1 = [0] := rfl
    rw [h1, List.map_cons, List.map_nil, attemptEvs_zero, hop]
    rfl
  · intro k hk
    have hk2 : k + 1 < 1 := hk
    exact absurd hk2 (by omega)
  · show (res = attemptRes op n st (1 - 1)
        ∧ ∀ e, attemptRes op n st (1 - 1) = .error e → rb e = false)
      ∨ ∃ e, attemptRes op n st (1 - 1) = .error e ∧ rb e = true
          ∧ 1 = fuel ∧ res = .error (.retryError e)
    have h0 : attemptRes op n st (1 - 1) = res1 := by
      rw [show (1 : Nat) - 1 = 0 from rfl, attemptRes_zero, hop]
    rcases hres with ⟨hres, hall⟩ | ⟨e, he, hrb, hone, hres⟩
    · left
      refine ⟨by rw [h0, hres], ?_⟩
      intro e he
      exact hall e (by rw [← h0, he])
    · right
      exact ⟨e, by rw [h0, he], hrb, hone, hres⟩

/-- A boolean that is not `true` is `false`. -/
theorem bool_eq_false_of_not_true {b : Bool} (h : ¬ b = true) : b = false := by
  cases b
  · rfl
  · exact absurd rfl h

/-- The retry loop satisfies `RetryRunSpec` for every positive attempt
budget. -/
theorem tenacityGo_spec {σ α : Type} (rb : Err → Bool) (w : Nat)
    (op : Nat → σ → σ × List Ev × Except Err α) (f : Nat) :
    ∀ (n : Nat) (st : σ),
      RetryRunSpec rb w (f + 1) op n st (tenacityGo rb w op (f + 1) n st) := by
  induction f with
  | zero =>
    intro n st
    rcases hop : op n st with ⟨st1, evs, res⟩
    rcases res with e | a
    · by_cases hrb : rb e = true
      · have hrun : tenacityGo rb w op (0 + 1) n st
            = ⟨st1, evs, .error (.retryError e), 1⟩ := by
          rw [tenacityGo, hop]
          simp [hrb]
        rw [hrun]
        exact retryRunSpec_single rb w 1 op n st st1 evs _ _ (Nat.le_refl 1) hop
          (Or.inr ⟨e, rfl, hrb, rfl, rfl⟩)
      · have hrun : tenacityGo rb w op (0 + 1) n st = ⟨st1, evs, .error e, 1⟩ := by
          rw [tenacityGo, hop]
          simp [hrb]
        rw [hrun]
        refine retryRunSpec_single rb w 1 op n st st1 evs _ _ (Nat.le_refl 1) hop
          (Or.inl ⟨rfl, ?_⟩)
        intro e2 he
        injection he with he2
        subst he2
        exact bool_eq_false_of_not_true hrb
    · have hrun : tenacityGo rb w op (0 + 1) n st = ⟨st1, evs, .ok a, 1⟩ := by
        rw [tenacityGo, hop]
      rw [hrun]
      exact retryRunSpec_single rb w 1 op n st st1 evs _ _ (Nat.le_refl 1) hop
        (Or.inl ⟨rfl, fun e2 he => Except.noConfusion he⟩)
  | succ f ih =>
    intro n st
    rcases hop : op n st with ⟨st1, evs, res⟩
    rcases res with e | a
    · by_cases hrb : rb e = true
      · have hst1 : st1 = (op n st).1 := by rw [hop]
        rcases ih (n + 1) st1 with ⟨⟨ha1, ha2⟩, hstate, hevents, hpre, hres⟩
        set r2 := tenacityGo rb w op (f + 1) (n + 1) st1 with hr2
        have hrun : tenacityGo rb w op (f + 1 + 1) n st
            = ⟨r2.state, evs ++ Ev.sleep w :: r2.events, r2.result, r2.attempts + 1⟩ := by
          rw [tenacityGo, hop]
          simp [hrb, ← hr2]
        rw [hrun]
        have hshift : ∀ k, runStates op (n + 1) st1 k = runStates op n st (k + 1) := by
          intro k; rw [hst1, runStates_shift]
        have hshiftR : ∀ k, attemptRes op (n + 1) st1 k = attemptRes op n st (k + 1) := by
          intro k; rw [hst1, attemptRes_shift]
        have hshiftE : ∀ k, attemptEvs op (n + 1) st1 k = attemptEvs op n st (k + 1) := by
          intro k; rw [hst1, attemptEvs_shift]
        refine ⟨⟨?_, ?_⟩, ?_, ?_, ?_, ?_⟩
        · show 1 ≤ r2.attempts + 1
          omega
        · show r2.attempts + 1 ≤ f + 1 + 1
          omega
        · show r2.state = runStates op n st (r2.attempts + 1)
          rw [hstate, hshift]
        · show evs ++ Ev.sleep w :: r2.events
            = intersperseSleep w ((List.range (r2.attempts + 1)).map (attemptEvs op n st))
          have hmap : (List.range r2.attempts).map (attemptEvs op n st ∘ Nat.succ)
              = (List.range r2.attempts).map (attemptEvs op (n + 1) st1) := by
            apply List.map_congr_left
            intro k _
            simp [Function.comp, hshiftE k]
          have hne : (List.range r2.attempts).map (attemptEvs op (n + 1) st1) ≠ [] := by
            simp only [ne_eq, List.map_eq_nil_iff, List.range_eq_nil]
            omega
          rw [List.range_succ_eq_map, List.map_cons, List.map_map, hmap,
            intersperseSleep_cons w _ _ hne, ← hevents, attemptEvs_zero, hop]
        · intro k hk
          have hk2 : k + 1 < r2.attempts + 1 := hk
          match k with
          | 0 =>
            refine ⟨e, ?_, hrb⟩
            rw [attemptRes_zero, hop]
          | k + 1 =>
            have h := hpre k (by omega)
            rwa [hshiftR k] at h
        · show (r2.result = attemptRes op n st (r2.attempts + 1 - 1)
              ∧ ∀ e, attemptRes op n st (r2.attempts + 1 - 1) = .error e → rb e = false)
            ∨ ∃ e, attemptRes op n st (r2.attempts + 1 - 1) = .error e ∧ rb e = true
                ∧ r2.attempts + 1 = f + 1 + 1 ∧ r2.result = .error (.retryError e)
          have hidx : r2.attempts - 1 + 1 = r2.attempts + 1 - 1 := by omega
          rcases hres with ⟨hres, hall⟩ | ⟨e2, he2, hrb2, hat2, hres2⟩
          · left
            refine ⟨by rw [hres, hshiftR (r2.attempts - 1), hidx], ?_⟩
            intro e3 he3
            apply hall e3
            rw [hshiftR (r2.attempts - 1), hidx]
            exact he3
          · right
            refine ⟨e2, ?_, hrb2, by omega, hres2⟩
            rw [hshiftR (r2.attempts - 1), hidx] at he2
            exact he2
      · have hrun : tenacityGo rb w op (f + 1 + 1) n st = ⟨st1, evs, .error e, 1⟩ := by
          rw [tenacityGo, hop]
          simp [hrb]
        rw [hrun]
        refine retryRunSpec_single rb w (f + 1 + 1) op n st st1 evs _ _ (by omega) hop
          (Or.inl ⟨rfl, ?_⟩)
        intro e2 he
        injection he with he2
        subst he2
        exact bool_eq_false_of_not_true hrb
    · have hrun : tenacityGo rb w op (f + 1 + 1) n st = ⟨st1, evs, .ok a, 1⟩ := by
        rw [tenacityGo, hop]
      rw [hrun]
      exact retryRunSpec_single rb w (f + 1 + 1) op n st st1 evs _ _ (by omega) hop
        (Or.inl ⟨rfl, fun e2 he => Except.noConfusion he⟩)

/-- `RetryRunSpec` for the public wrapper `tenacityRetry` with a budget of
3 attempts. -/
theorem tenacityRetry_spec {σ α : Type} (rb : Err → Bool) (w : Nat)
    (op : Nat → σ → σ × List Ev × Except Err α) (st : σ) :
    RetryRunSpec rb w 3 op 1 st (tenacityRetry 3 w rb op st) :=
  tenacityGo_spec rb w op 2 1 st

/-- A run whose first attempt succeeds is that one attempt. -/
theorem tenacityRetry_first_ok {σ α : Type} (rb : Err → Bool) (w : Nat)
    (op : Nat → σ → σ × List Ev × Except Err α) (st st1 : σ) (evs : List Ev) (a : α)
    (hop : op 1 st = (st1, evs, .ok a)) :
    tenacityRetry 3 w rb op st = ⟨st1, evs, .ok a, 1⟩ := by
  unfold tenacityRetry
  rw [show (3 : Nat) = 2 + 1 from rfl, tenacityGo, hop]

/-- The retried runs never notify when no single attempt does. -/
theorem tenacityGo_notifications {σ α : Type} (rb : Err → Bool) (w : Nat)
    (op : Nat → σ → σ × List Ev × Except Err α)
    (h : ∀ n st, Scheduler.notifications (op n st).2.1 = []) :
    ∀ (fuel n : Nat) (st : σ),
      Scheduler.notifications (tenacityGo rb w op fuel n st).events = [] := by
  intro fuel
  induction fuel with
  | zero =>
    intro n st
    rfl
  | succ f ih =>
    intro n st
    rcases hop : op n st with ⟨st1, evs, res⟩
    have hevs : Scheduler.notifications evs = [] := by
      have := h n st
      rwa [hop] at this
    rcases res with e | a
    · by_cases hrb : rb e = true
      · by_cases hf : f = 0
        · subst hf
          have hrun : tenacityGo rb w op (0 + 1) n st
              = ⟨st1, evs, .error (.retryError e), 1⟩ := by
            rw [tenacityGo, hop]
            simp [hrb]
          rw [hrun]
          exact hevs
        · have hrun : tenacityGo rb w op (f + 1) n st
              = ⟨(tenacityGo rb w op f (n + 1) st1).state,
                  evs ++ Ev.sleep w :: (tenacityGo rb w op f (n + 1) st1).events,
                  (tenacityGo rb w op f (n + 1) st1).result,
                  (tenacityGo rb w op f (n + 1) st1).attempts + 1⟩ := by
            rw [tenacityGo, hop]
            simp [hrb, hf]
          rw [hrun]
          show Scheduler.notifications
              (evs ++ Ev.sleep w :: (tenacityGo rb w op f (n + 1) st1).events) = []
          unfold Scheduler.notifications at *
          rw [List.filter_append, hevs, List.filter_cons]
          simp only [show Scheduler.isNotify (Ev.sleep w) = false from rfl]
          simpa using ih (n + 1) st1
      · have hrun : tenacityGo rb w op (f + 1) n st = ⟨st1, evs, .error e, 1⟩ := by
          rw [tenacityGo, hop]
          simp [hrb]
        rw [hrun]
        exact hevs
    · have hrun : tenacityGo rb w op (f + 1) n st = ⟨st1, evs, .ok a, 1⟩ := by
        rw [tenacityGo, hop]
      rw [hrun]
      exact hevs

/-- Exact occurrence count of a task record in a list. -/
def countTask (v : App.Task) : List App.Task → Nat
  | [] => 0
  | y :: ys => (if y = v then 1 else 0) + countTask v ys

/-- `list.remove` drops exactly one occurrence of the removed value. -/
theorem countTask_removeFirst_self (v : App.Task) (l : List App.Task) :
    countTask v (App.removeFirst v l) = countTask v l - 1 := by
  induction l with
  | nil => rfl
  | cons y ys ih =>
    by_cases h : y = v
    · subst h
      simp [App.removeFirst, countTask]
    · simp [App.removeFirst, h, countTask, ih]

/-- `list.remove` of a different value leaves a value's count unchanged. -/
theorem countTask_removeFirst_other (v x : App.Task) (l : List App.Task) (hxv : x ≠ v) :
    countTask v (App.removeFirst x l) = countTask v l := by
  induction l with
  | nil => rfl
  | cons y ys ih =>
    by_cases h : y = x
    · subst h
      simp [App.removeFirst, countTask, hxv]
    · simp [App.removeFirst, h, countTask, ih]

/-- Each pass of the pruning loop removes one occurrence per stale snapshot
entry: a value the scheduler does not know ends with count
`count in db - count in snapshot`. -/
theorem countTask_pruneLoop (known : String → Bool) (v : App.Task)
    (hv : known v.id = false) :
    ∀ (s db : List App.Task),
      countTask v (App.pruneLoop known s db) = countTask v db - countTask v s := by
  intro s
  induction s with
  | nil =>
    intro db
    simp [App.pruneLoop, countTask]
  | cons t ts ih =>
    intro db
    by_cases ht : known t.id = true
    · have htv : t ≠ v := by
        intro he
        rw [he, hv] at ht
        cases ht
      simp [App.pruneLoop, ht, ih, countTask, htv]
    · have ht2 : known t.id = false := bool_eq_false_of_not_true ht
      by_cases htv : t = v
      · subst htv
        simp [App.pruneLoop, ht2, ih, countTask, countTask_removeFirst_self]
        omega
      · simp [App.pruneLoop, ht2, ih, countTask, countTask_removeFirst_other v t _ htv, htv]

/-- Membership gives a positive count. -/
theorem countTask_pos_of_mem (v : App.Task) (l : List App.Task) (h : v ∈ l) :
    1 ≤ countTask v l := by
  induction l with
  | nil => cases h
  | cons y ys ih =>
    rcases List.mem_cons.mp h with he | hm
    · simp [countTask, he.symm]
    · have := ih hm
      simp [countTask]
      omega

/-- Every record surviving the pruning loop over its own snapshot has an id
the scheduler knows. -/
theorem pruneLoop_known (known : String → Bool) (db : List App.Task) (t : App.Task)
    (h : t ∈ App.pruneLoop known db db) : known t.id = true := by
  by_cases hk : known t.id = true
  · exact hk
  · have hv : known t.id = false := bool_eq_false_of_not_true hk
    have hc := countTask_pruneLoop known t hv db db
    have hp := countTask_pos_of_mem t _ h
    omega

/-- A non-notification event drops out of the notification list. -/
theorem notifications_cons_call (e : Ev) (he : Scheduler.isNotify e = false)
    (evs : List Ev) :
    Scheduler.notifications (e :: evs) = Scheduler.notifications evs := by
  unfold Scheduler.notifications
  rw [List.filter_cons, he]
  simp

/-- Notifications distribute over event concatenation. -/
theorem notifications_append (a b : List Ev) :
    Scheduler.notifications (a ++ b)
      = Scheduler.notifications a ++ Scheduler.notifications b := by
  unfold Scheduler.notifications
  exact List.filter_append a b

/-- The billing client's login emits no notification. -/
theorem notifications_yunyu_login (server : YunYu.Server) (st : YunYu.State) :
    Scheduler.notifications (YunYu.login server st).2 = [] := by
  unfold YunYu.login YunYu.applyToken
  by_cases h : (server.login st.account st.password).success = false
  · simp [h, Scheduler.notifications, Scheduler.isNotify, List.filter]
  · by_cases h2 : (server.applyToken
        (YunYu.saveAccessTokenToFile
          { st with accessToken := (server.login st.account st.password).accessToken
          }).accessToken).success = false
    · simp [h, h2, Scheduler.notifications, Scheduler.isNotify, List.filter]
    · simp [h, h2, Scheduler.notifications, Scheduler.isNotify, List.filter]

/-- The billing client's refresh emits no notification. -/
theorem notifications_yunyu_refresh (server : YunYu.Server) (st : YunYu.State) :
    Scheduler.notifications (YunYu.refreshAccessToken server st).2 = [] := by
  unfold YunYu.refreshAccessToken
  by_cases h : (server.refresh st.refreshToken).code = 0
  · rw [if_neg (by simp [h])]
    rfl
  · rw [if_pos h]
    show Scheduler.notifications (Ev.refreshCall :: (YunYu.login server st).2) = []
    rw [notifications_cons_call Ev.refreshCall rfl]
    exact notifications_yunyu_login server st

/-- The billing response hook emits no notification. -/
theorem notifications_yunyu_responseInterceptor (server : YunYu.Server)
    (st : YunYu.State) (code : Int) :
    Scheduler.notifications (YunYu.responseInterceptor server st code).2.1 = [] := by
  unfold YunYu.responseInterceptor
  by_cases h : code = -5
  · rw [if_pos h]
    exact notifications_yunyu_refresh server st
  · rw [if_neg h]
    rfl

/-- A billing attempt emits no notification. -/
theorem notifications_billsAttempt (server : YunYu.Server)
    (net : Nat → HttpResult YunYu.BillsResp) (n : Nat) (st : YunYu.State) :
    Scheduler.notifications (YunYu.billsAttempt server net n st).2.1 = [] := by
  unfold YunYu.billsAttempt
  rcases net n with _ | r
  · rfl
  · have hri := notifications_yunyu_responseInterceptor server st r.code
    rcases hp : (YunYu.responseInterceptor server st r.code).2.2 with _ | err
    · rcases hs : r.success
      · simp only [hp, hs, Bool.false_eq_true, if_false]
        rw [notifications_cons_call Ev.billsCall rfl]
        exact hri
      · simp only [hp, hs, if_true]
        rw [notifications_cons_call Ev.billsCall rfl]
        exact hri
    · simp only [hp]
      rw [notifications_cons_call Ev.billsCall rfl]
      exact hri

/-- A balance attempt emits no notification. -/
theorem notifications_balanceAttempt (server : YunYu.Server)
    (net : Nat → HttpResult YunYu.BalanceResp) (n : Nat) (st : YunYu.State) :
    Scheduler.notifications (YunYu.balanceAttempt server net n st).2.1 = [] := by
  unfold YunYu.balanceAttempt
  rcases net n with _ | r
  · rfl
  · have hri := notifications_yunyu_responseInterceptor server st r.code
    rcases hp : (YunYu.responseInterceptor server st r.code).2.2 with _ | err
    · rcases hs : r.success
      · simp only [hp, hs, Bool.false_eq_true, if_false]
        rw [notifications_cons_call Ev.balanceCall rfl]
        exact hri
      · simp only [hp, hs, if_true]
        rw [notifications_cons_call Ev.balanceCall rfl]
        exact hri
    · simp only [hp]
      rw [notifications_cons_call Ev.balanceCall rfl]
      exact hri

/-- The retried bill-page fetch emits no notification. -/
theorem notifications_fetchBills (server : YunYu.Server)
    (net : Nat → HttpResult YunYu.BillsResp) (st : YunYu.State) :
    Scheduler.notifications (YunYu.fetchPrepayEnergyBills server net st).events = [] :=
  tenacityGo_notifications isRetryable 1 (YunYu.billsAttempt server net)
    (fun n s => notifications_billsAttempt server net n s) 3 1 st

/-- The retried balance fetch emits no notification. -/
theorem notifications_fetchBalance (server : YunYu.Server)
    (net : Nat → HttpResult YunYu.BalanceResp) (st : YunYu.State) :
    Scheduler.notifications (YunYu.fetchPrepayBalance server net st).events = [] :=
  tenacityGo_notifications isRetryable 1 (YunYu.balanceAttempt server net)
    (fun n s => notifications_balanceAttempt server net n s) 3 1 st

/-- The attendance client's login emits no notification. -/
theorem notifications_redsea_login (server : RedSea.Server) (st : RedSea.State) :
    Scheduler.notifications (RedSea.login server st).2.1 = [] := by
  unfold RedSea.login RedSea.createToken
  by_cases hc : server.createToken.state = "1"
  · by_cases ho : (server.oauthLogin server.createToken.result).state = "1"
    · simp [hc, ho, Scheduler.notifications, Scheduler.isNotify, List.filter]
    · simp [hc, ho, Scheduler.notifications, Scheduler.isNotify, List.filter]
  · simp [hc, Scheduler.notifications, Scheduler.isNotify, List.filter]

/-- A user-info attempt emits no notification. -/
theorem notifications_fetchUserInfoAttempt (server : RedSea.Server) (n : Nat)
    (st : RedSea.State) :
    Scheduler.notifications (RedSea.fetchUserInfoAttempt server n st).2.1 = [] := by
  unfold RedSea.fetchUserInfoAttempt
  rcases server.userInfo n with _ | r
  · simp [Scheduler.notifications, Scheduler.isNotify, List.filter]
  · by_cases h : r.text = ""
    · have hl := notifications_redsea_login server st
      simp only [h, if_true, Scheduler.notifications, List.filter_cons] at *
      simpa [Scheduler.isNotify] using hl
    · simp [h, Scheduler.notifications, Scheduler.isNotify, List.filter]

/-- The retried user-info fetch emits no notification. -/
theorem notifications_fetchUserInfo (server : RedSea.Server) (st : RedSea.State) :
    Scheduler.notifications (RedSea.fetchUserInfo server st).events = [] :=
  tenacityGo_notifications isRetryable 1 (RedSea.fetchUserInfoAttempt server)
    (fun n s => notifications_fetchUserInfoAttempt server n s) 3 1 st

/-- `_init` emits no notification. -/
theorem notifications_redsea_init (server : RedSea.Server) (st : RedSea.State) :
    Scheduler.notifications (RedSea.init server st).2.1 = [] := by
  unfold RedSea.init
  have hl := notifications_redsea_login server st
  have hf := notifications_fetchUserInfo server (RedSea.login server st).1
  rcases hp : (RedSea.login server st).2.2 with _ | err
  · rcases hr : (RedSea.fetchUserInfo server (RedSea.login server st).1).result with e | u
    · simp only [hp, hr, Scheduler.notifications, List.filter_append] at *
      rw [hl, hf]
      rfl
    · simp only [hp, hr, Scheduler.notifications, List.filter_append] at *
      rw [hl, hf]
      rfl
  · simp only [hp, Scheduler.notifications] at *
    exact hl

/-- The attendance request hook emits no notification. -/
theorem notifications_redsea_requestInterceptor (server : RedSea.Server) (st : RedSea.State) :
    Scheduler.notifications (RedSea.requestInterceptor server st).2.1 = [] := by
  unfold RedSea.requestInterceptor
  have hi := notifications_redsea_init server st
  rcases st.user with _ | u
  · rcases hp : (RedSea.init server st).2.2 with _ | err
    · simp only [hp] at *
      exact hi
    · simp only [hp] at *
      exact hi
  · rfl

/-- The attendance response hook emits no notification. -/
theorem notifications_redsea_responseInterceptor (server : RedSea.Server)
    (st : RedSea.State) (resp : RedSea.HttpResponse) :
    Scheduler.notifications (RedSea.responseInterceptor server st resp).2.1 = [] := by
  unfold RedSea.responseInterceptor
  have hl := notifications_redsea_login server st
  by_cases ha : resp.statusCode = 302 ∧ resp.location = some "/RedseaPlatform/index"
  · simp only [ha, if_true]
    exact hl
  · simp only [ha, if_false]
    rcases resp.body with _ | j
    · rfl
    · by_cases hb : j.state = some "Nosession"
      · simp only [hb, if_true]
        exact hl
      · simp only [hb, if_false]
        rfl

/-- A `touch_fish` attempt emits no notification. -/
theorem notifications_touchFishAttempt (server : RedSea.Server)
    (net : Nat → HttpResult RedSea.TouchFishResp) (n : Nat) (st : RedSea.State) :
    Scheduler.notifications (RedSea.touchFishAttempt server net n st).2.1 = [] := by
  unfold RedSea.touchFishAttempt
  have hq := notifications_redsea_requestInterceptor server st
  rcases hqr : (RedSea.requestInterceptor server st).2.2 with _ | err
  · rcases net n with _ | r
    · simp only [hqr, Scheduler.notifications, List.filter_append] at *
      rw [hq]
      rfl
    · have hp := notifications_redsea_responseInterceptor server
        (RedSea.requestInterceptor server st).1 r.http
      rcases hpr : (RedSea.responseInterceptor server
          (RedSea.requestInterceptor server st).1 r.http).2.2 with _ | err2
      · rcases hbody : r.http.body with _ | j
        · simp only [hqr, hpr, hbody, Scheduler.notifications, List.filter_append,
            List.filter_cons] at *
          rw [hq, hp]
          rfl
        · by_cases hs : j.state = some "1"
          · simp only [hqr, hpr, hbody, hs, if_true, Scheduler.notifications,
              List.filter_append, List.filter_cons] at *
            rw [hq, hp]
            rfl
          · simp only [hqr, hpr, hbody, hs, if_false, Scheduler.notifications,
              List.filter_append, List.filter_cons] at *
            rw [hq, hp]
            rfl
      · simp only [hqr, hpr, Scheduler.notifications, List.filter_append,
          List.filter_cons] at *
        rw [hq, hp]
        rfl
  · simp only [hqr] at *
    exact hq

/-- A `touch_fish_state` attempt emits no notification. -/
theorem notifications_touchFishStateAttempt (server : RedSea.Server)
    (net : Nat → HttpResult RedSea.TouchFishStateResp) (n : Nat) (st : RedSea.State) :
    Scheduler.notifications (RedSea.touchFishStateAttempt server net n st).2.1 = [] := by
  unfold RedSea.touchFishStateAttempt
  rcases st.user with _ | u
  · rfl
  · have hq := notifications_redsea_requestInterceptor server st
    rcases hqr : (RedSea.requestInterceptor server st).2.2 with _ | err
    · rcases net n with _ | r
      · simp only [hqr, Scheduler.notifications, List.filter_append] at *
        rw [hq]
        rfl
      · have hp := notifications_redsea_responseInterceptor server
          (RedSea.requestInterceptor server st).1 r.http
        rcases hpr : (RedSea.responseInterceptor server
            (RedSea.requestInterceptor server st).1 r.http).2.2 with _ | err2
        · rcases hbody : r.http.body with _ | j
          · simp only [hqr, hpr, hbody, Scheduler.notifications, List.filter_append,
              List.filter_cons] at *
            rw [hq, hp]
            rfl
          · by_cases hs : j.state = some "1"
            · simp only [hqr, hpr, hbody, hs, if_true, Scheduler.notifications,
                List.filter_append, List.filter_cons] at *
              rw [hq, hp]
              rfl
            · simp only [hqr, hpr, hbody, hs, if_false, Scheduler.notifications,
                List.filter_append, List.filter_cons] at *
              rw [hq, hp]
              rfl
        · simp only [hqr, hpr, Scheduler.notifications, List.filter_append,
            List.filter_cons] at *
          rw [hq, hp]
          rfl
    · simp only [hqr] at *
      exact hq

/-- The retried `touch_fish` emits no notification. -/
theorem notifications_touchFish (server : RedSea.Server)
    (net : Nat → HttpResult RedSea.TouchFishResp) (st : RedSea.State) :
    Scheduler.notifications (RedSea.touchFish server net st).events = [] :=
  tenacityGo_notifications isRetryable 1 (RedSea.touchFishAttempt server net)
    (fun n s => notifications_touchFishAttempt server net n s) 3 1 st

/-- The retried `touch_fish_state` emits no notification. -/
theorem notifications_touchFishState (server : RedSea.Server)
    (net : Nat → HttpResult RedSea.TouchFishStateResp) (st : RedSea.State) :
    Scheduler.notifications (RedSea.touchFishState server net st).events = [] :=
  tenacityGo_notifications isRetryable 1 (RedSea.touchFishStateAttempt server net)
    (fun n s => notifications_touchFishStateAttempt server net n s) 3 1 st

/-- Removing an id the registry does not hold leaves it unchanged. -/
theorem removeSchedule_not_mem (idv : String) (reg : App.Registry) (h : idv ∉ reg) :
    App.removeSchedule idv reg = reg := by
  unfold App.removeSchedule App.removeSchedules
  apply List.filter_eq_self.mpr
  intro a ha
  simp only [List.contains_cons, List.contains_nil, Bool.or_false, decide_eq_true_eq]
  intro he
  rw [beq_iff_eq] at he
  exact h (he ▸ ha)

/-! Write-through discipline used by claim C6. -/

/-- Between a pre-state and a post-state of one billing-client operation:
any token the operation changed has been written through to its file. -/
def WriteThrough (old new : YunYu.State) : Prop :=
  (new.accessToken ≠ old.accessToken → new.store.accessFile = some new.accessToken)
  ∧ (new.refreshToken ≠ old.refreshToken → new.store.refreshFile = some new.refreshToken)

/-- `_login` observes the write-through discipline. -/
theorem writeThrough_login (server : YunYu.Server) (st : YunYu.State) :
    WriteThrough st (YunYu.login server st).1 := by
  unfold YunYu.login YunYu.applyToken
  by_cases h : (server.login st.account st.password).success = false
  · simp only [h, if_true]
    exact ⟨fun hc => absurd rfl hc, fun hc => absurd rfl hc⟩
  · simp only [h, if_false]
    by_cases h2 : (server.applyToken
        (YunYu.saveAccessTokenToFile
          { st with accessToken := (server.login st.account st.password).accessToken
          }).accessToken).success = false
    · simp only [h2, if_true]
      constructor
      · intro _
        rfl
      · intro hc
        exact absurd rfl hc
    · simp only [h2, if_false]
      constructor
      · intro _
        rfl
      · intro _
        rfl

/-- `_apply_token` observes the write-through discipline. -/
theorem writeThrough_applyToken (server : YunYu.Server) (st : YunYu.State) :
    WriteThrough st (YunYu.applyToken server st).1 := by
  unfold YunYu.applyToken
  by_cases h : (server.applyToken st.accessToken).success = false
  · simp only [h, if_true]
    exact ⟨fun hc => absurd rfl hc, fun hc => absurd rfl hc⟩
  · simp only [h, if_false]
    constructor
    · intro hc
      exact absurd rfl hc
    · intro _
      rfl

/-- `_refresh_access_token` observes the write-through discipline. -/
theorem writeThrough_refresh (server : YunYu.Server) (st : YunYu.State) :
    WriteThrough st (YunYu.refreshAccessToken server st).1 := by
  unfold YunYu.refreshAccessToken
  by_cases h : (server.refresh st.refreshToken).code = 0
  · rw [if_neg (by simp [h])]
    constructor
    · intro _
      rfl
    · intro hc
      exact absurd rfl hc
  · rw [if_pos h]
    exact writeThrough_login server st

/-!  The claims. -/

/-- C3: for the billing variant, a server-reported login failure
(`success: false`) leaves the whole session state — in-memory access and
refresh tokens and both persisted token files — unchanged, performs no
further call beyond the login request, and raises nothing (the embedded
`YunYu.login` is total, so returning a state is returning normally); and
when the server keeps rejecting the session (`code -5` on the next invoke)
and the refresh token is also rejected, the next invoke's interceptor runs
`_login` again. -/
theorem c3_login_failure_state_unchanged (server : YunYu.Server) (st : YunYu.State)
    (h : (server.login st.account st.password).success = false) :
    YunYu.login server st = (st, [Ev.loginCall])
      ∧ ((server.refresh st.refreshToken).code ≠ 0 →
          Ev.loginCall ∈ (YunYu.responseInterceptor server st (-5)).2.1) := by
  constructor
  · unfold YunYu.login
    simp [h]
  · intro hr
    unfold YunYu.responseInterceptor
    rw [if_pos rfl]
    show Ev.loginCall ∈ (YunYu.refreshAccessToken server st).2
    unfold YunYu.refreshAccessToken
    rw [if_pos hr]
    show Ev.loginCall ∈ Ev.refreshCall :: (YunYu.login server st).2
    unfold YunYu.login
    simp [h]

/-- Witness for C3 at the always-rejecting portal and a fresh session. -/
theorem c3_witness :
    (yServerReject.login st0Y.account st0Y.password).success = false
      ∧ (YunYu.login yServerReject st0Y = (st0Y, [Ev.loginCall])
          ∧ ((yServerReject.refresh st0Y.refreshToken).code ≠ 0 →
              Ev.loginCall ∈ (YunYu.responseInterceptor yServerReject st0Y (-5)).2.1)) :=
  ⟨rfl, c3_login_failure_state_unchanged yServerReject st0Y rfl⟩

/-- C4: the billing refresh presents the stored refresh token; if the
server accepts (`code = 0`) the new access token is stored and persisted and
the refresh token is untouched; if the server rejects it the operation is
exactly a full `_login` (it does not write the access token itself). -/
theorem c4_refresh_fallback (server : YunYu.Server) (st : YunYu.State) :
    ((server.refresh st.refreshToken).code = 0 →
      (YunYu.refreshAccessToken server st).1.accessToken
          = (server.refresh st.refreshToken).accessToken
        ∧ (YunYu.refreshAccessToken server st).1.store.accessFile
          = some (server.refresh st.refreshToken).accessToken
        ∧ (YunYu.refreshAccessToken server st).1.refreshToken = st.refreshToken
        ∧ (YunYu.refreshAccessToken server st).1.store.refreshFile = st.store.refreshFile)
    ∧ ((server.refresh st.refreshToken).code ≠ 0 →
      YunYu.refreshAccessToken server st
        = ((YunYu.login server st).1, Ev.refreshCall :: (YunYu.login server st).2)) := by
  constructor
  · intro h
    unfold YunYu.refreshAccessToken
    rw [if_neg (by simp [h])]
    exact ⟨rfl, rfl, rfl, rfl⟩
  · intro h
    unfold YunYu.refreshAccessToken
    rw [if_pos h]

/-- C6: token persistence round-trips — a fresh session constructed over the
storage a save produced reads back the saved token before any network call —
and every token mutation by login, applyToken or refresh is written through
to storage within the same operation. -/
theorem c6_persistence_round_trip (st : YunYu.State) (account password : String)
    (server : YunYu.Server) :
    (YunYu.init (YunYu.saveAccessTokenToFile st).store account password).accessToken
        = st.accessToken
    ∧ (YunYu.init (YunYu.saveRefreshTokenToFile st).store account password).refreshToken
        = st.refreshToken
    ∧ WriteThrough st (YunYu.login server st).1
    ∧ WriteThrough st (YunYu.applyToken server st).1
    ∧ WriteThrough st (YunYu.refreshAccessToken server st).1 := by
  refine ⟨?_, ?_, writeThrough_login server st, writeThrough_applyToken server st,
    writeThrough_refresh server st⟩
  · unfold YunYu.init YunYu.saveAccessTokenToFile YunYu.getAccessTokenFromFile
      YunYu.getRefreshTokenFromFile
    rcases st.store.refreshFile with _ | v
    · rfl
    · rfl
  · unfold YunYu.init YunYu.saveRefreshTokenToFile YunYu.getAccessTokenFromFile
      YunYu.getRefreshTokenFromFile
    rcases st.store.accessFile with _ | v
    · rfl
    · rfl

/-- C9 counterexample: deleting an unknown schedule id acknowledges with
200 `success: true` — no `ScheduleNotFound`, no 4xx-class result (the
registry state is indeed unchanged). -/
theorem c9_cex_unknown_id_returns_ok :
    App.deleteDateTask ["job-1"] "missing" = (["job-1"], App.apiOk)
      ∧ App.apiOk.status = 200
      ∧ App.apiOk.success = true
      ∧ ¬ (400 ≤ App.apiOk.status ∧ App.apiOk.status < 500) := by
  refine ⟨?_, rfl, rfl, ?_⟩
  · rfl
  · show ¬ (400 ≤ 200 ∧ 200 < 500)
    omega

/-- C9 (amended): removing an id the registry does not hold leaves the
registry unchanged and is acknowledged with 200 OK (APScheduler's
`remove_schedules` deletes silently); no lookup error is raised, and an
exception from the scheduler would be turned into a 500 — not a 4xx — by
the app's generic exception handler. -/
theorem c9_remove_unknown_silent (reg : App.Registry) (idv : String) (h : idv ∉ reg) :
    App.deleteDateTask reg idv = (reg, App.apiOk)
      ∧ App.apiOk.status = 200
      ∧ (∀ msg, (App.globalExceptionHandler msg).status = 500) := by
  refine ⟨?_, rfl, fun _ => rfl⟩
  unfold App.deleteDateTask
  rw [removeSchedule_not_mem idv reg h]

/-- Witness for C9 at a one-schedule registry and an unknown id. -/
theorem c9_witness :
    "missing" ∉ (["job-1"] : App.Registry)
      ∧ (App.deleteDateTask ["job-1"] "missing" = (["job-1"], App.apiOk)
          ∧ App.apiOk.status = 200
          ∧ (∀ msg, (App.globalExceptionHandler msg).status = 500)) :=
  ⟨by decide, c9_remove_unknown_silent ["job-1"] "missing" (by decide)⟩

/-- C10: both list endpoints prune the in-memory task list as a side
effect — after `GET /api/task/cron` or `GET /api/task/date` completes, every
entry still in the list has an id the scheduler knows. -/
theorem c10_list_endpoints_prune_db (known : String → Bool) (db : List App.Task)
    (t : App.Task) :
    (t ∈ App.getCronTaskDb known db → known t.id = true)
      ∧ (t ∈ App.getDateTaskDb known db → known t.id = true) :=
  ⟨fun h => pruneLoop_known known db t h, fun h => pruneLoop_known known db t h⟩

/-- The attendance login makes at most one login call, and exactly one when
the signed token was issued. -/
theorem redsea_login_count (server : RedSea.Server) (st : RedSea.State) :
    (RedSea.login server st).2.1.count Ev.loginCall ≤ 1
      ∧ (server.createToken.state = "1" →
          (RedSea.login server st).2.1.count Ev.loginCall = 1) := by
  unfold RedSea.login RedSea.createToken
  by_cases hc : server.createToken.state = "1"
  · by_cases ho : (server.oauthLogin server.createToken.result).state = "1"
    · simp [hc, ho]
    · simp [hc, ho]
  · simp [hc]

/-- The billing re-authentication makes exactly one refresh call. -/
theorem yunyu_refresh_count (server : YunYu.Server) (st : YunYu.State) :
    (YunYu.refreshAccessToken server st).2.count Ev.refreshCall = 1 := by
  unfold YunYu.refreshAccessToken YunYu.login YunYu.applyToken
  by_cases h : (server.refresh st.refreshToken).code = 0
  · rw [if_neg (by simp [h])]
    rfl
  · rw [if_pos h]
    by_cases hl : (server.login st.account st.password).success = false
    · simp [hl]
    · by_cases h2 : (server.applyToken
          (YunYu.saveAccessTokenToFile
            { st with accessToken := (server.login st.account st.password).accessToken
            }).accessToken).success = false
      · simp [hl, h2]
      · simp [hl, h2]

/-- C2 (amended): each variant checks the subset of the three invalidation
markers that applies to it, in the stated relative order — the attendance
interceptor checks (a) the redirect to the login page first (for any body)
and then (b) the `Nosession` status, re-authenticating with exactly one full
login and failing the attempt with `Unauthorized`; the billing interceptor
checks only (c) the numeric code `-5`, re-authenticating with exactly one
token refresh and failing with `Unauthorized`; a response matching no
checked marker is returned to the caller untouched. -/
theorem c2_response_invalidation_markers (server : RedSea.Server) (st : RedSea.State)
    (resp : RedSea.HttpResponse) (yserver : YunYu.Server) (stY : YunYu.State)
    (code : Int) :
    (resp.statusCode = 302 ∧ resp.location = some "/RedseaPlatform/index" →
      RedSea.responseInterceptor server st resp
        = ((RedSea.login server st).1, (RedSea.login server st).2.1,
            some (((RedSea.login server st).2.2).getD .unauthorized)))
    ∧ (¬ (resp.statusCode = 302 ∧ resp.location = some "/RedseaPlatform/index") →
        ∀ j, resp.body = some j → j.state = some "Nosession" →
          RedSea.responseInterceptor server st resp
            = ((RedSea.login server st).1, (RedSea.login server st).2.1,
                some (((RedSea.login server st).2.2).getD .unauthorized)))
    ∧ (¬ (resp.statusCode = 302 ∧ resp.location = some "/RedseaPlatform/index") →
        (∀ j, resp.body = some j → j.state ≠ some "Nosession") →
          RedSea.responseInterceptor server st resp = (st, [], none))
    ∧ (RedSea.login server st).2.1.count Ev.loginCall ≤ 1
    ∧ (server.createToken.state = "1" →
        (RedSea.login server st).2.1.count Ev.loginCall = 1)
    ∧ (code = -5 →
        YunYu.responseInterceptor yserver stY code
          = ((YunYu.refreshAccessToken yserver stY).1,
              (YunYu.refreshAccessToken yserver stY).2, some .unauthorized))
    ∧ (code ≠ -5 → YunYu.responseInterceptor yserver stY code = (stY, [], none))
    ∧ (YunYu.refreshAccessToken yserver stY).2.count Ev.refreshCall = 1 := by
  obtain ⟨sc, loc, body⟩ := resp
  refine ⟨?_, ?_, ?_, (redsea_login_count server st).1, (redsea_login_count server st).2,
    ?_, ?_, yunyu_refresh_count yserver stY⟩
  · intro ha
    unfold RedSea.responseInterceptor
    rw [if_pos ha]
  · intro hna j hj hs
    simp only at hj
    subst hj
    unfold RedSea.responseInterceptor
    rw [if_neg hna]
    show (if j.state = some "Nosession" then _ else _) = _
    rw [if_pos hs]
  · intro hna hs
    unfold RedSea.responseInterceptor
    rw [if_neg hna]
    rcases body with _ | j
    · rfl
    · show (if j.state = some "Nosession" then _ else _) = _
      rw [if_neg (hs j rfl)]
  · intro h
    unfold YunYu.responseInterceptor
    rw [if_pos h]
  · intro h
    unfold YunYu.responseInterceptor
    rw [if_neg h]

/-- C2 counterexample: the attendance interceptor returns a response whose
JSON body carries the numeric unauthorized code `-5` (marker (c)) to the
caller untouched — no re-authentication, no `Unauthorized`. -/
theorem c2_cex_attendance_ignores_numeric_code :
    respCodeMinus5.body = some ⟨some "ok", some (-5), ""⟩
      ∧ RedSea.responseInterceptor rServerOk st1R respCodeMinus5 = (st1R, [], none) :=
  ⟨rfl, rfl⟩

/-- Witness for C2 at a redirect-to-login response against the accepting
portal. -/
theorem c2_witness :
    ((302 : Nat) = 302 ∧ (some "/RedseaPlatform/index" : Option String)
        = some "/RedseaPlatform/index")
      ∧ RedSea.responseInterceptor rServerOk st1R
          ⟨302, some "/RedseaPlatform/index", none⟩
        = ((RedSea.login rServerOk st1R).1, (RedSea.login rServerOk st1R).2.1,
            some (((RedSea.login rServerOk st1R).2.2).getD .unauthorized)) :=
  ⟨⟨rfl, rfl⟩,
    (c2_response_invalidation_markers rServerOk st1R
      ⟨302, some "/RedseaPlatform/index", none⟩ yServerOk st0Y 0).1 ⟨rfl, rfl⟩⟩

/-- The cookie jar after a successful oauth login. -/
def loginCookies (server : RedSea.Server) (st : RedSea.State) : List (String × String) :=
  RedSea.updateCookies st.cookies (server.oauthLogin server.createToken.result).cookies

/-- C5 (amended): on first use the attendance variant's request hook runs
`_init` — one full login, then the profile fetch — caches the profile and
fails the attempt with `Unauthorized` instead of executing the request; the
billing variant has no such gate: its request hook only attaches the current
(possibly empty) access token and never authenticates or raises. -/
theorem c5_first_use_login (server : RedSea.Server) (st : RedSea.State)
    (r : RedSea.UserInfoResp) (hU : st.user = none)
    (hC : server.createToken.state = "1")
    (hO : (server.oauthLogin server.createToken.result).state = "1")
    (hN : server.userInfo 1 = .resp r) (hT : ¬ r.text = "") :
    (RedSea.requestInterceptor server st).2.2 = some Err.unauthorized
      ∧ (RedSea.requestInterceptor server st).2.1.count Ev.loginCall = 1
      ∧ (RedSea.requestInterceptor server st).1.user
          = some ⟨r.userId, r.userName, r.staffId⟩
      ∧ ∀ (stY : YunYu.State) (req : YunYu.Request),
          YunYu.requestInterceptor stY req
            = ({ req with cookieSession := stY.accessToken }, [], none) := by
  have hlogin : RedSea.login server st
      = ({ st with cookies := loginCookies server st },
          [Ev.createTokenCall, Ev.loginCall], none) := by
    unfold RedSea.login RedSea.createToken loginCookies
    rw [if_pos hC]
    show (if (server.oauthLogin server.createToken.result).state = "1" then _ else _) = _
    rw [if_pos hO]
    rfl
  have hatt : RedSea.fetchUserInfoAttempt server 1
      ({ st with cookies := loginCookies server st })
      = ({ st with cookies := loginCookies server st }, [Ev.fetchUserInfoCall], .ok r) := by
    unfold RedSea.fetchUserInfoAttempt
    rw [hN]
    show (if r.text = "" then _ else _) = _
    rw [if_neg hT]
  have hfu : RedSea.fetchUserInfo server ({ st with cookies := loginCookies server st })
      = ⟨{ st with cookies := loginCookies server st },
          [Ev.fetchUserInfoCall], .ok r, 1⟩ := by
    unfold RedSea.fetchUserInfo
    exact tenacityRetry_first_ok isRetryable 1 _ _ _ _ _ hatt
  have hinit : RedSea.init server st
      = ({ st with
            user := some ⟨r.userId, r.userName, r.staffId⟩,
            cookies := loginCookies server st },
          [Ev.createTokenCall, Ev.loginCall, Ev.fetchUserInfoCall], none) := by
    simp [RedSea.init, hlogin, hfu]
  have hreq : RedSea.requestInterceptor server st
      = ({ st with
            user := some ⟨r.userId, r.userName, r.staffId⟩,
            cookies := loginCookies server st },
          [Ev.createTokenCall, Ev.loginCall, Ev.fetchUserInfoCall],
          some .unauthorized) := by
    simp only [RedSea.requestInterceptor, hU, hinit]
  rw [hreq]
  exact ⟨rfl, rfl, rfl, fun stY req => rfl⟩

/-- Witness for C5: a fresh attendance session against the accepting portal
logs in, caches the profile and fails the first attempt with
`Unauthorized`. -/
theorem c5_witness :
    (st0R.user = none
      ∧ rServerOk.createToken.state = "1"
      ∧ (rServerOk.oauthLogin rServerOk.createToken.result).state = "1"
      ∧ rServerOk.userInfo 1 = .resp ⟨"body", "u1", "user-one", "s1"⟩
      ∧ ¬ ("body" : String) = "")
    ∧ ((RedSea.requestInterceptor rServerOk st0R).2.2 = some Err.unauthorized
      ∧ (RedSea.requestInterceptor rServerOk st0R).2.1.count Ev.loginCall = 1
      ∧ (RedSea.requestInterceptor rServerOk st0R).1.user
          = some ⟨"u1", "user-one", "s1"⟩
      ∧ ∀ (stY : YunYu.State) (req : YunYu.Request),
          YunYu.requestInterceptor stY req
            = ({ req with cookieSession := stY.accessToken }, [], none)) :=
  ⟨⟨rfl, rfl, rfl, rfl, by decide⟩,
    c5_first_use_login rServerOk st0R ⟨"body", "u1", "user-one", "s1"⟩
      rfl rfl rfl rfl (by decide)⟩

/-- C5 counterexample: an outbound billing call with no credential present
(fresh session, empty access token) does not log in and does not fail with
`Unauthorized` — the request is executed carrying the empty `SESSION`
cookie. -/
theorem c5_cex_billing_no_first_use_login :
    st0Y.accessToken = ""
      ∧ YunYu.requestInterceptor st0Y ⟨"untouched"⟩ = (⟨""⟩, [], none) :=
  ⟨rfl, rfl⟩

/-- The attendance task completes without raising and sends exactly one
notification, whatever the client layer returns. -/
theorem lazy_boundary (server : RedSea.Server)
    (netTf : Nat → HttpResult RedSea.TouchFishResp)
    (netTfs : Nat → HttpResult RedSea.TouchFishStateResp) (st : RedSea.State) :
    (Scheduler.lazy server netTf netTfs st).2.2 = none
      ∧ (Scheduler.notifications (Scheduler.lazy server netTf netTfs st).2.1).length = 1 := by
  unfold Scheduler.lazy
  rcases h1 : (RedSea.touchFish server netTf st).result with e | td
  · simp only [h1]
    refine ⟨by trivial, ?_⟩
    rw [notifications_append, notifications_touchFish]
    rfl
  · simp only [h1]
    rcases h2 : (RedSea.touchFishState server netTfs
        (RedSea.touchFish server netTf st).state).result with e | kq
    · simp only [h2]
      refine ⟨by trivial, ?_⟩
      rw [notifications_append, notifications_append, notifications_touchFish,
        notifications_touchFishState]
      rfl
    · simp only [h2]
      refine ⟨by trivial, ?_⟩
      rw [notifications_append, notifications_append, notifications_touchFish,
        notifications_touchFishState]
      rfl

/-- When the check-in call fails, the attendance task's one notification is
the max-priority error notification carrying the captured trace. -/
theorem lazy_error_notification (server : RedSea.Server)
    (netTf : Nat → HttpResult RedSea.TouchFishResp)
    (netTfs : Nat → HttpResult RedSea.TouchFishStateResp) (st : RedSea.State)
    (e : Err) (he : (RedSea.touchFish server netTf st).result = .error e) :
    Scheduler.notifications (Scheduler.lazy server netTf netTfs st).2.1
      = [Ev.notify "error" ("打卡异常\n" ++ Scheduler.tracebackStr e) none (some 5)] := by
  unfold Scheduler.lazy
  simp only [he]
  rw [notifications_append, notifications_touchFish]
  rfl

/-- The billing task completes without raising and sends exactly one
notification, whatever the client layer returns. -/
theorem fetchDailyBills_boundary (yserver : YunYu.Server)
    (netB : Nat → HttpResult YunYu.BillsResp)
    (netBal : Nat → HttpResult YunYu.BalanceResp) (stY : YunYu.State) :
    (Scheduler.fetchDailyBills yserver netB netBal stY).2.2 = none
      ∧ (Scheduler.notifications
          (Scheduler.fetchDailyBills yserver netB netBal stY).2.1).length = 1 := by
  unfold Scheduler.fetchDailyBills
  rcases h1 : (YunYu.fetchPrepayEnergyBills yserver netB stY).result with e | d
  · simp only [h1]
    refine ⟨by trivial, ?_⟩
    rw [notifications_append, notifications_fetchBills]
    rfl
  · simp only [h1]
    rcases h2 : (YunYu.fetchPrepayBalance yserver netBal
        (YunYu.fetchPrepayEnergyBills yserver netB stY).state).result with e | bal
    · simp only [h2]
      refine ⟨by trivial, ?_⟩
      rw [notifications_append, notifications_append, notifications_fetchBills,
        notifications_fetchBalance]
      rfl
    · simp only [h2]
      rcases hd : d.content with _ | ⟨entry, rest⟩
      · simp only [hd]
        refine ⟨by trivial, ?_⟩
        rw [notifications_append, notifications_append, notifications_fetchBills,
          notifications_fetchBalance]
        rfl
      · simp only [hd]
        refine ⟨by trivial, ?_⟩
        rw [notifications_append, notifications_append, notifications_fetchBills,
          notifications_fetchBalance]
        rfl

/-- When the bill fetch fails, the billing task's one notification is the
max-priority error notification carrying the captured trace. -/
theorem fetchDailyBills_error_notification (yserver : YunYu.Server)
    (netB : Nat → HttpResult YunYu.BillsResp)
    (netBal : Nat → HttpResult YunYu.BalanceResp) (stY : YunYu.State)
    (e : Err) (he : (YunYu.fetchPrepayEnergyBills yserver netB stY).result = .error e) :
    Scheduler.notifications (Scheduler.fetchDailyBills yserver netB netBal stY).2.1
      = [Ev.notify "error" ("获取电费账单异常\n" ++ Scheduler.tracebackStr e) none
          (some 5)] := by
  unfold Scheduler.fetchDailyBills
  simp only [he]
  rw [notifications_append, notifications_fetchBills]
  rfl

/-- C7 (amended): the base task functions (`lazy`, `fetch_daily_bills`) and
the bare random-delay wrapper always complete without raising and send
exactly one notification — on a client-layer failure the max-priority error
notification carrying the captured trace; the workday-gated wrappers,
however, call the workday oracle outside the blanket handler, so an oracle
failure propagates to the scheduler. -/
theorem c7_tasks_never_raise_except_oracle (server : RedSea.Server)
    (netTf : Nat → HttpResult RedSea.TouchFishResp)
    (netTfs : Nat → HttpResult RedSea.TouchFishStateResp) (st : RedSea.State)
    (yserver : YunYu.Server) (netB : Nat → HttpResult YunYu.BillsResp)
    (netBal : Nat → HttpResult YunYu.BalanceResp) (stY : YunYu.State)
    (delaySec : Nat) :
    (Scheduler.lazy server netTf netTfs st).2.2 = none
    ∧ (Scheduler.notifications (Scheduler.lazy server netTf netTfs st).2.1).length = 1
    ∧ (∀ e, (RedSea.touchFish server netTf st).result = .error e →
        Scheduler.notifications (Scheduler.lazy server netTf netTfs st).2.1
          = [Ev.notify "error" ("打卡异常\n" ++ Scheduler.tracebackStr e) none (some 5)])
    ∧ (Scheduler.fetchDailyBills yserver netB netBal stY).2.2 = none
    ∧ (Scheduler.notifications
        (Scheduler.fetchDailyBills yserver netB netBal stY).2.1).length = 1
    ∧ (∀ e, (YunYu.fetchPrepayEnergyBills yserver netB stY).result = .error e →
        Scheduler.notifications (Scheduler.fetchDailyBills yserver netB netBal stY).2.1
          = [Ev.notify "error" ("获取电费账单异常\n" ++ Scheduler.tracebackStr e) none
              (some 5)])
    ∧ (Scheduler.lazyWithRandomDelay delaySec server netTf netTfs st).2.2 = none
    ∧ (Scheduler.notifications
        (Scheduler.lazyWithRandomDelay delaySec server netTf netTfs st).2.1).length = 1
    ∧ (∀ e, (Scheduler.lazyInWorkday (.error e) server netTf netTfs st).2.2 = some e
        ∧ (Scheduler.lazyWithRandomDelayInWorkday (.error e) delaySec server netTf
            netTfs st).2.2 = some e) := by
  refine ⟨(lazy_boundary server netTf netTfs st).1,
    (lazy_boundary server netTf netTfs st).2,
    fun e he => lazy_error_notification server netTf netTfs st e he,
    (fetchDailyBills_boundary yserver netB netBal stY).1,
    (fetchDailyBills_boundary yserver netB netBal stY).2,
    fun e he => fetchDailyBills_error_notification yserver netB netBal stY e he,
    ?_, ?_, fun e => ⟨rfl, rfl⟩⟩
  · show (Scheduler.lazy server netTf netTfs st).2.2 = none
    exact (lazy_boundary server netTf netTfs st).1
  · show (Scheduler.notifications
        (Ev.sleep delaySec :: (Scheduler.lazy server netTf netTfs st).2.1)).length = 1
    rw [notifications_cons_call (Ev.sleep delaySec) rfl]
    exact (lazy_boundary server netTf netTfs st).2

/-- C7 counterexample: the scheduled attendance wrapper raises when the
workday oracle fails — the task does not complete without raising. -/
theorem c7_cex_oracle_failure_propagates :
    (Scheduler.lazyWithRandomDelayInWorkday (.error (.runtime "ConnectError")) 5
        rServerOk (netConst touchFishRespOk) (netConst touchFishStateRespOk)
        st0R).2.2
      = some (.runtime "ConnectError") := rfl

/-- C8 (amended): the workday gate guards the attendance task — on a
non-workday the gated wrappers make no remote call, send nothing and return
silently — while the scheduled billing task is the bare `fetch_daily_bills`,
which ignores the workday oracle entirely. -/
theorem c8_workday_gate_guards_attendance_only (delaySec : Nat)
    (server : RedSea.Server) (netTf : Nat → HttpResult RedSea.TouchFishResp)
    (netTfs : Nat → HttpResult RedSea.TouchFishStateResp) (st : RedSea.State)
    (w : Bool) (yserver : YunYu.Server) (netB : Nat → HttpResult YunYu.BillsResp)
    (netBal : Nat → HttpResult YunYu.BalanceResp) (stY : YunYu.State) :
    Scheduler.lazyWithRandomDelayInWorkday (.ok false) delaySec server netTf netTfs st
        = (st, [], none)
      ∧ Scheduler.lazyInWorkday (.ok false) server netTf netTfs st = (st, [], none)
      ∧ Scheduler.scheduledBillingTask w yserver netB netBal stY
          = Scheduler.fetchDailyBills yserver netB netBal stY :=
  ⟨rfl, rfl, rfl⟩

/-- C8 counterexample: on a non-workday (oracle false) the scheduled
billing-fetch task still makes remote billing calls and sends a
notification. -/
theorem c8_cex_billing_fetch_ignores_workday :
    (Scheduler.scheduledBillingTask false yServerOk (netConst billsRespOk)
        (netConst balanceRespOk) st0Y).2.1.count Ev.billsCall = 1
      ∧ (Scheduler.scheduledBillingTask false yServerOk (netConst billsRespOk)
          (netConst balanceRespOk) st0Y).2.1.count Ev.balanceCall = 1
      ∧ (Scheduler.notifications (Scheduler.scheduledBillingTask false yServerOk
          (netConst billsRespOk) (netConst balanceRespOk) st0Y).2.1).length = 1 :=
  ⟨rfl, rfl, rfl⟩

/-- C1 (amended): every public domain operation is the tenacity wrapper
around its single attempt with a budget of 3 attempts; the wrapper makes
between 1 and 3 attempts, separates consecutive attempts by exactly one
fixed 1-unit sleep, re-attempts only after an `Unauthorized` or timeout
failure, ends a run at the first non-retryable failure — propagating that
exception unchanged with no further attempt — and after the 3rd consecutive
`Unauthorized`/timeout failure propagates tenacity's `RetryError` wrapping
that last exception (not the bare last exception). -/
theorem c1_retry_contract (σ α : Type) (op : Nat → σ → σ × List Ev × Except Err α)
    (st : σ) :
    (1 ≤ (tenacityRetry 3 1 isRetryable op st).attempts
      ∧ (tenacityRetry 3 1 isRetryable op st).attempts ≤ 3)
    ∧ (tenacityRetry 3 1 isRetryable op st).events
        = intersperseSleep 1
            ((List.range (tenacityRetry 3 1 isRetryable op st).attempts).map
              (attemptEvs op 1 st))
    ∧ (∀ k, k + 1 < (tenacityRetry 3 1 isRetryable op st).attempts →
        ∃ e, attemptRes op 1 st k = .error e ∧ isRetryable e = true)
    ∧ (∀ e, attemptRes op 1 st 0 = .error e → isRetryable e = false →
        (tenacityRetry 3 1 isRetryable op st).result = .error e
          ∧ (tenacityRetry 3 1 isRetryable op st).attempts = 1)
    ∧ (∀ e1 e2 e3, attemptRes op 1 st 0 = .error e1 → isRetryable e1 = true →
        attemptRes op 1 st 1 = .error e2 → isRetryable e2 = true →
        attemptRes op 1 st 2 = .error e3 → isRetryable e3 = true →
        (tenacityRetry 3 1 isRetryable op st).attempts = 3
          ∧ (tenacityRetry 3 1 isRetryable op st).result = .error (.retryError e3))
    ∧ (∀ server net stY, YunYu.fetchPrepayEnergyBills server net stY
        = tenacityRetry 3 1 isRetryable (YunYu.billsAttempt server net) stY)
    ∧ (∀ server net stY, YunYu.fetchPrepayBalance server net stY
        = tenacityRetry 3 1 isRetryable (YunYu.balanceAttempt server net) stY)
    ∧ (∀ server net stR, RedSea.touchFish server net stR
        = tenacityRetry 3 1 isRetryable (RedSea.touchFishAttempt server net) stR)
    ∧ (∀ server net stR, RedSea.touchFishState server net stR
        = tenacityRetry 3 1 isRetryable (RedSea.touchFishStateAttempt server net) stR) := by
  obtain ⟨⟨ha1, ha2⟩, hstate, hevents, hpre, hres⟩ :=
    tenacityRetry_spec isRetryable 1 op st
  refine ⟨⟨ha1, ha2⟩, hevents, hpre, ?_, ?_,
    fun _ _ _ => rfl, fun _ _ _ => rfl, fun _ _ _ => rfl, fun _ _ _ => rfl⟩
  · intro e h0 hrb
    have hat : (tenacityRetry 3 1 isRetryable op st).attempts = 1 := by
      by_contra hne
      have h2 : 0 + 1 < (tenacityRetry 3 1 isRetryable op st).attempts := by omega
      obtain ⟨e2, he2, hrb2⟩ := hpre 0 h2
      rw [h0] at he2
      injection he2 with he3
      rw [he3] at hrb
      rw [hrb] at hrb2
      cases hrb2
    refine ⟨?_, hat⟩
    rcases hres with ⟨hr, _⟩ | ⟨e2, he2, hrb2, _, _⟩
    · rw [hr, hat]
      exact h0
    · rw [hat] at he2
      rw [h0] at he2
      injection he2 with he3
      rw [he3] at hrb
      rw [hrb] at hrb2
      cases hrb2
  · intro e1 e2 e3 h1 hb1 h2 hb2 h3 hb3
    have hcases : (tenacityRetry 3 1 isRetryable op st).attempts = 1
        ∨ (tenacityRetry 3 1 isRetryable op st).attempts = 2
        ∨ (tenacityRetry 3 1 isRetryable op st).attempts = 3 := by omega
    rcases hres with ⟨hr, hall⟩ | ⟨e4, he4, hrb4, hat4, hres4⟩
    · exfalso
      rcases hcases with hc | hc | hc
      · have := hall e1 (by rw [hc]; exact h1)
        rw [hb1] at this
        cases this
      · have := hall e2 (by rw [hc]; exact h2)
        rw [hb2] at this
        cases this
      · have := hall e3 (by rw [hc]; exact h3)
        rw [hb3] at this
        cases this
    · refine ⟨hat4, ?_⟩
      rw [hat4] at he4
      rw [h3] at he4
      injection he4 with he5
      rw [he5]
      exact hres4

/-- C1 counterexample: three consecutive timeouts exhaust the budget and the
operation propagates `RetryError(timeout)` — not the bare last timeout. -/
theorem c1_cex_exhaustion_wraps_retry_error :
    (YunYu.fetchPrepayEnergyBills yServerOk netTimeout st0Y).result
        = .error (.retryError .timeout)
      ∧ (YunYu.fetchPrepayEnergyBills yServerOk netTimeout st0Y).attempts = 3
      ∧ (YunYu.fetchPrepayEnergyBills yServerOk netTimeout st0Y).result
          ≠ .error .timeout := by
  refine ⟨rfl, rfl, ?_⟩
  intro h
  have h2 : (Except.error (Err.retryError .timeout) : Except Err YunYu.BillsData)
      = .error .timeout := h
  injection h2 with h3
  exact Err.noConfusion h3

end DailyTask
